import Mathlib

/-!
Shallow embedding of the dispatch engine of the relaymesh/githook Python worker
SDK (`relaymesh_githook`): the message/event data model, the retry-decision
normalisation (`retry.py`), the per-message pipeline `Worker.handle_message`
and the requeue translation of `Worker._run_topic_subscriber` (`worker.py`),
middleware wrapping (`Worker.wrap`), topic registration (`Worker.handle_topic`),
the rule prologue (`Worker.prepare_rule_subscriptions`), listener notification
loops (`Worker.notify_*`), and the default codec (`codec.py`).

Python exceptions are modelled as `String` error values (the result of `str(e)`);
fallible calls return `Except String _`.  Side effects (log lines, event-log
status updates, listener notifications, retry-policy consultations, handler
attempts) are recorded in an explicit trace of `Effect` values.  Python dicts
with string keys are modelled as insertion-ordered association lists with
exact-match lookup, mirroring the source's `dict.get(key, default)` calls.
-/

/-! ## Association lists (Python `dict` with string keys) -/

/-- `d.get(key)` on a Python dict: exact-match lookup, first (unique) binding. -/
def assocGet {α : Type} : List (String × α) → String → Option α
  | [], _ => none
  | (k, v) :: rest, key => if k = key then some v else assocGet rest key

/-- `d[key] = v` on a Python dict: replace in place, else append (insertion order). -/
def assocSet {α : Type} : List (String × α) → String → α → List (String × α)
  | [], key, v => [(key, v)]
  | (k, w) :: rest, key, v =>
      if k = key then (key, v) :: rest else (k, w) :: assocSet rest key v

/-- `metadata.get(key, "")` as used throughout `worker.py` and `codec.py`. -/
def metaGet (md : List (String × String)) (key : String) : String :=
  (assocGet md key).getD ""

/-- Python `str.strip()`: drop leading and trailing whitespace.  Defined over
the character list so the kernel can evaluate it on concrete strings. -/
def pyStrip (s : String) : String :=
  let ws : Char → Bool := fun c => c = ' ' || c = '\t' || c = '\n' || c = '\r'
  String.mk (((s.data.dropWhile ws).reverse.dropWhile ws).reverse)

/-- Python `str.lower()` (ASCII case fold, which is all the source compares). -/
def pyLower (s : String) : String :=
  String.mk (s.data.map Char.toLower)

/-! ## Constants

The modules `relaymesh_githook.metadata` and `relaymesh_githook.event_log_status`
are imported by `worker.py` and `codec.py` but their sources are not in the
repository snapshot; their constants are fixed by the specification. -/

/-- Modelled from the spec: module `relaymesh_githook.event_log_status` is
missing from the sources; §6 fixes the event-log status tokens as the exact
strings `SUCCESS` and `FAILED`. -/
def EVENT_LOG_STATUS_SUCCESS : String := "SUCCESS"

/-- Modelled from the spec: module `relaymesh_githook.event_log_status` is
missing from the sources; §6 fixes the event-log status tokens as the exact
strings `SUCCESS` and `FAILED`. -/
def EVENT_LOG_STATUS_FAILED : String := "FAILED"

/-- Modelled from the spec: module `relaymesh_githook.metadata` is missing from
the sources; §6 lists the canonical metadata keys (`provider`, `event`,
`request_id`, `installation_id`, `log_id`, `provider_instance_key`, `driver`)
with exact-match lookups.  The unit test exercises the `log_id` key literally. -/
def METADATA_KEY_PROVIDER : String := "provider"

/-- Modelled from the spec: see `METADATA_KEY_PROVIDER`. -/
def METADATA_KEY_EVENT : String := "event"

/-- Modelled from the spec: see `METADATA_KEY_PROVIDER`. -/
def METADATA_KEY_REQUEST_ID : String := "request_id"

/-- Modelled from the spec: see `METADATA_KEY_PROVIDER`. -/
def METADATA_KEY_INSTALLATION_ID : String := "installation_id"

/-- Modelled from the spec: see `METADATA_KEY_PROVIDER`. -/
def METADATA_KEY_LOG_ID : String := "log_id"

/-- Modelled from the spec: see `METADATA_KEY_PROVIDER`. -/
def METADATA_KEY_DRIVER : String := "driver"

/-! ## Data model (`types.py`, `event.py`, `context.py`) -/

/-- Payload bytes. -/
abbrev Bytes := List Nat

/-- A JSON value as produced by `json.loads`; numbers are modelled as integers
(no claim depends on float payloads). -/
inductive Json where
  | null : Json
  | bool (b : Bool) : Json
  | num (n : Int) : Json
  | str (s : String) : Json
  | arr (elems : List Json) : Json
  | obj (fields : List (String × Json)) : Json

/-- Python truthiness of a JSON value (`x or y` semantics in `codec.py`). -/
def jtruthy : Json → Bool
  | .null => false
  | .bool b => b
  | .num n => n != 0
  | .str s => s != ""
  | .arr elems => !elems.isEmpty
  | .obj fields => !fields.isEmpty

/-- `RelaybusMessage` from `types.py`. -/
structure RelaybusMessage where
  topic : String
  payload : Bytes
  metadata : List (String × String)
  content_type : String

/-- `Event` from `event.py`.  The opaque attached client is modelled as `Unit`. -/
structure Event where
  provider : String
  type : String
  topic : String
  metadata : List (String × String)
  payload : Bytes
  normalized : Option Json
  request_id : String
  installation_id : String
  log_id : String
  client : Option Unit

/-- `WorkerContext` from `context.py`; the `threading.Event` cancellation signal
carries no data relevant to the claims and is omitted. -/
structure WorkerContext where
  tenant_id : String
  topic : String
  request_id : String
  log_id : String

/-! ## Retry decisions (`retry.py`) -/

/-- `RetryDecision` dataclass; dataclass defaults are `retry=False, nack=True`. -/
structure RetryDecision where
  retry : Bool
  nack : Bool
deriving DecidableEq

/-- A Python scalar value stored in a user-supplied decision dict. -/
inductive PyValue where
  | none : PyValue
  | bool (b : Bool) : PyValue
  | int (n : Int) : PyValue
  | str (s : String) : PyValue
deriving DecidableEq

/-- Python `bool(v)` on a `PyValue`. -/
def pyTruthy : PyValue → Bool
  | .none => false
  | .bool b => b
  | .int n => n != 0
  | .str s => s != ""

/-- The dynamic value a retry policy may return: a structured `RetryDecision`,
a plain dict, or anything else (e.g. Python `None`). -/
inductive RetryValue where
  | decision (d : RetryDecision) : RetryValue
  | dict (entries : List (String × PyValue)) : RetryValue
  | other : RetryValue

/-- `normalize_retry_decision` from `retry.py`: `value.get("retry",
value.get("Retry", False))` and `value.get("nack", value.get("Nack", True))`
coerced through `bool(...)`; any non-decision non-dict value yields the
dataclass default `RetryDecision()`. -/
def normalize_retry_decision : RetryValue → RetryDecision
  | .decision d => d
  | .dict entries =>
      let retryInner := (assocGet entries "Retry").getD (.bool false)
      let retry := pyTruthy ((assocGet entries "retry").getD retryInner)
      let nackInner := (assocGet entries "Nack").getD (.bool true)
      let nack := pyTruthy ((assocGet entries "nack").getD nackInner)
      { retry := retry, nack := nack }
  | .other => { retry := false, nack := true }

/-! ## Retry count normalisation (`worker.py`, `_normalize_retry_count`) -/

/-- The dynamic value handed to `_normalize_retry_count`: `None`, something
`int(...)` accepts, or something on which `int(...)` raises. -/
inductive RetryCountOption where
  | none : RetryCountOption
  | int (n : Int) : RetryCountOption
  | notAnInt : RetryCountOption

/-- `_normalize_retry_count`: `None` → 0, unconvertible → 0, negative → 0. -/
def normalize_retry_count : RetryCountOption → Nat
  | .none => 0
  | .notAnInt => 0
  | .int n => if n < 0 then 0 else n.toNat

/-! ## Middleware wrapping (`Worker.wrap`) -/

/-- `Worker.wrap`: `wrapped = handler; for mw in reversed(self.middleware):
wrapped = mw(wrapped)`. -/
def wrap {H : Type} (middleware : List (H → H)) (handler : H) : H :=
  middleware.reverse.foldl (fun acc mw => mw acc) handler

/-! ## Effects trace -/

/-- One observable side effect of the dispatch pipeline. -/
inductive Effect where
  | logLine (s : String) : Effect
  | statusUpdate (logId status errMsg : String) : Effect
  | onError (evt : Option Event) (err : String) : Effect
  | onMessageStart (evt : Event) : Effect
  | onMessageFinish (evt : Event) (err : Option String) : Effect
  | retryPolicyCall (evt : Option Event) (err : String) : Effect
  | handlerAttempt : Effect

/-- The `(log_id, status, error_message)` triples of the status updates issued
in a trace (each is one `EventLogsClient.update_status` call). -/
def statusUpdates : List Effect → List (String × String × String)
  | [] => []
  | .statusUpdate lid st e :: rest => (lid, st, e) :: statusUpdates rest
  | _ :: rest => statusUpdates rest

/-- The `(event, error)` pairs handed to `notify_error` in a trace. -/
def onErrorCalls : List Effect → List (Option Event × String)
  | [] => []
  | .onError evt e :: rest => (evt, e) :: onErrorCalls rest
  | _ :: rest => onErrorCalls rest

/-- The `(event, error)` pairs handed to the retry policy in a trace. -/
def retryPolicyCalls : List Effect → List (Option Event × String)
  | [] => []
  | .retryPolicyCall evt e :: rest => (evt, e) :: retryPolicyCalls rest
  | _ :: rest => retryPolicyCalls rest

/-- Number of invocations of the (middleware-wrapped) handler in a trace. -/
def countHandlerAttempts : List Effect → Nat
  | [] => 0
  | .handlerAttempt :: rest => countHandlerAttempts rest + 1
  | _ :: rest => countHandlerAttempts rest

/-- Number of `notify_message_start` calls in a trace. -/
def countMessageStarts : List Effect → Nat
  | [] => 0
  | .onMessageStart _ :: rest => countMessageStarts rest + 1
  | _ :: rest => countMessageStarts rest

/-- The errors handed to `notify_message_finish` in a trace. -/
def messageFinishErrs : List Effect → List (Option String)
  | [] => []
  | .onMessageFinish _ e :: rest => e :: messageFinishErrs rest
  | _ :: rest => messageFinishErrs rest

/-! ## The dispatch pipeline (`Worker.handle_message`) -/

/-- The worker configuration consumed by `handle_message`.  Handlers have an
abstract type `H`; `exec h ectx evt k` is the outcome of calling the
(possibly middleware-wrapped) handler `h` on attempt number `k` (0-based):
`none` for a normal return, `some e` when it raises an error rendering as `e`.
`retry` is the user retry policy (`on_error`), whose dynamic result is
normalised by `_call_retry_policy`. -/
structure WorkerModel (H : Type) where
  codec : String → RelaybusMessage → Except String Event
  clientProvider : Option (WorkerContext → Event → Except String Unit)
  topicHandlers : List (String × H)
  typeHandlers : List (String × H)
  middleware : List (H → H)
  exec : H → WorkerContext → Event → Nat → Option String
  retry : WorkerContext → Option Event → String → RetryValue
  retryCount : Nat

/-- `Worker.build_context`: child context with inherited tenant and per-message
topic/request_id/log_id from the raw message metadata. -/
def build_context (base : WorkerContext) (topic : String) (msg : RelaybusMessage) :
    WorkerContext :=
  { tenant_id := base.tenant_id
    topic := topic
    request_id := metaGet msg.metadata METADATA_KEY_REQUEST_ID
    log_id := metaGet msg.metadata METADATA_KEY_LOG_ID }

/-- `Worker.update_event_log_status`: no call when `log_id` is empty; otherwise
one `update_status(log_id, status, str(err or ""))` call whose own failure
(`updateErr = some u`) is logged and swallowed. -/
def update_event_log_status (updateErr : Option String) (logId status : String)
    (err : Option String) : List Effect :=
  if logId = "" then []
  else
    Effect.statusUpdate logId status (err.getD "") ::
      (match updateErr with
       | some u => [Effect.logLine ("event log update failed: " ++ u)]
       | none => [])

/-- The retry loop of `handle_message`: `for _ in range(attempts): try:
wrapped(...); last_err = None; break except ...: last_err = err`.  `idx` is the
0-based attempt number, `lastErr` the error carried so far; returns the final
`last_err` and the number of handler invocations performed. -/
def attemptLoop (behavior : Nat → Option String) (idx : Nat)
    (lastErr : Option String) : Nat → Option String × Nat
  | 0 => (lastErr, 0)
  | fuel + 1 =>
      match behavior idx with
      | none => (none, 1)
      | some e =>
          let r := attemptLoop behavior (idx + 1) (some e) fuel
          (r.1, r.2 + 1)

/-- The client-attachment step of `handle_message`: when a provider is
configured, `evt.client = provider(event_ctx, evt)`, propagating its error. -/
def attachClient {H : Type} (w : WorkerModel H) (ectx : WorkerContext)
    (evt : Event) : Except String Event :=
  match w.clientProvider with
  | none => .ok evt
  | some provider =>
      match provider ectx evt with
      | .ok c => .ok { evt with client := some c }
      | .error e => .error e

/-- Handler resolution: `self.topic_handlers.get(topic) or
self.type_handlers.get(evt.type)` (handlers are functions, hence truthy). -/
def handlerLookup {H : Type} (w : WorkerModel H) (topic : String) (evt : Event) :
    Option H :=
  match assocGet w.topicHandlers topic with
  | some h => some h
  | none => assocGet w.typeHandlers evt.type

/-- `Worker.handle_message` (worker.py lines 400-472): returns the
`should_nack` flag and the trace of side effects, in source order. -/
def handle_message {H : Type} (w : WorkerModel H) (updateErr : Option String)
    (ctx : WorkerContext) (topic : String) (msg : RelaybusMessage) :
    Bool × List Effect :=
  let logId := metaGet msg.metadata METADATA_KEY_LOG_ID
  match w.codec topic msg with
  | .error err =>
      let decision := normalize_retry_decision (w.retry ctx none err)
      (decision.retry || decision.nack,
        Effect.logLine ("decode failed: " ++ err) ::
          update_event_log_status updateErr logId EVENT_LOG_STATUS_FAILED (some err) ++
          [Effect.onError none err, Effect.retryPolicyCall none err])
  | .ok evt0 =>
      let eventCtx := build_context ctx topic msg
      match attachClient w eventCtx evt0 with
      | .error err =>
          let decision := normalize_retry_decision (w.retry eventCtx (some evt0) err)
          (decision.retry || decision.nack,
            Effect.logLine ("client init failed: " ++ err) ::
              update_event_log_status updateErr logId EVENT_LOG_STATUS_FAILED (some err) ++
              [Effect.onError (some evt0) err,
               Effect.retryPolicyCall (some evt0) err])
      | .ok evt =>
          let reqId := metaGet evt.metadata METADATA_KEY_REQUEST_ID
          let startEff :=
            (if reqId = "" then []
             else
               [Effect.logLine
                  ("request_id=" ++ reqId ++ " topic=" ++ evt.topic ++
                     " provider=" ++ evt.provider ++ " type=" ++ evt.type)]) ++
              [Effect.onMessageStart evt]
          match handlerLookup w topic evt with
          | none =>
              (false,
                startEff ++
                  [Effect.logLine ("no handler for topic=" ++ topic ++ " type=" ++ evt.type),
                   Effect.onMessageFinish evt none] ++
                  update_event_log_status updateErr logId EVENT_LOG_STATUS_SUCCESS none)
          | some h =>
              let behavior := w.exec (wrap w.middleware h) eventCtx evt
              let res := attemptLoop behavior 0 none (w.retryCount + 1)
              let attemptEff := List.replicate res.2 Effect.handlerAttempt
              match res.1 with
              | none =>
                  (false,
                    startEff ++ attemptEff ++
                      [Effect.onMessageFinish evt none] ++
                      update_event_log_status updateErr logId EVENT_LOG_STATUS_SUCCESS none)
              | some e =>
                  let decision := normalize_retry_decision (w.retry eventCtx (some evt) e)
                  (decision.retry || decision.nack,
                    startEff ++ attemptEff ++
                      [Effect.onMessageFinish evt (some e),
                       Effect.onError (some evt) e] ++
                      update_event_log_status updateErr logId EVENT_LOG_STATUS_FAILED (some e) ++
                      [Effect.retryPolicyCall (some evt) e])

/-- `_should_requeue` (worker.py lines 755-757): the `driver` metadata value,
lowercased, equals `"amqp"`. -/
def should_requeue (msg : RelaybusMessage) : Bool :=
  pyLower (metaGet msg.metadata METADATA_KEY_DRIVER) == "amqp"

/-- The per-delivery callback of `Worker._run_topic_subscriber` (worker.py
lines 358-369): run `handle_message`, then requeue only when `should_nack`
and the message's driver honours requeue semantics. -/
def dispatch_requeue {H : Type} (w : WorkerModel H) (updateErr : Option String)
    (ctx : WorkerContext) (topic : String) (msg : RelaybusMessage) :
    Bool × List Effect :=
  let r := handle_message w updateErr ctx topic msg
  ((r.1 && should_requeue msg), r.2)

/-! ## Listener notification (`Worker.notify_*`, `listener.py`) -/

/-- A listener's five callbacks; each either returns (`.ok ()`) or raises. -/
structure ListenerModel where
  on_start : WorkerContext → Except String Unit
  on_exit : WorkerContext → Except String Unit
  on_message_start : WorkerContext → Event → Except String Unit
  on_message_finish : WorkerContext → Event → Option String → Except String Unit
  on_error : WorkerContext → Option Event → String → Except String Unit

/-- The loop shared by all five `Worker.notify_*` methods: `for listener in
self.listeners: listener.OnX(...)`, with no exception handling.  Returns the
number of listeners invoked and the propagated error, if any. -/
def notifyLoop : List (Except String Unit) → Nat × Option String
  | [] => (0, none)
  | .ok _ :: rest =>
      let r := notifyLoop rest
      (r.1 + 1, r.2)
  | .error e :: _ => (1, some e)

/-- `Worker.notify_message_start` over modelled listeners. -/
def notify_message_start (listeners : List ListenerModel) (ctx : WorkerContext)
    (evt : Event) : Nat × Option String :=
  notifyLoop (listeners.map (fun l => l.on_message_start ctx evt))

/-- `Worker.notify_error` over modelled listeners. -/
def notify_error (listeners : List ListenerModel) (ctx : WorkerContext)
    (evt : Option Event) (err : String) : Nat × Option String :=
  notifyLoop (listeners.map (fun l => l.on_error ctx evt err))

/-! ## Default codec (`codec.py`) -/

/-- The protobuf `cloud.v1.EventPayload` envelope with fields
`{provider, name, payload}`. -/
structure Envelope where
  provider : String
  name : String
  payload : Bytes

/-- The external primitives used by `DefaultCodec.decode`: protobuf
`EventPayload.ParseFromString` (raises on failure, hence `Option`),
`json.loads` on UTF-8 bytes (`none` when it raises), and Python `str(...)`
rendering of non-string JSON values. -/
structure CodecOracle where
  parseEnvelope : Bytes → Option Envelope
  jsonLoads : Bytes → Option Json
  pyRepr : Json → String

/-- `_parse_json_value`: `None` for empty data, else `json.loads` with
exceptions mapped to `None`. -/
def parse_json_value (o : CodecOracle) (data : Bytes) : Option Json :=
  if data = [] then none else o.jsonLoads data

/-- `_parse_json_object`: the parsed value when it is a JSON object, else
`None`. -/
def parse_json_object (o : CodecOracle) (data : Bytes) : Option Json :=
  match parse_json_value o data with
  | some (Json.obj fields) => some (Json.obj fields)
  | _ => none

/-- Python `str(v)` of a JSON value: identity on strings, oracle elsewhere. -/
def pyStr (o : CodecOracle) : Json → String
  | .str s => s
  | v => o.pyRepr v

/-- `_resolve_topic`: the trimmed explicit topic when non-empty, else
`str(msg.topic or "")`. -/
def resolve_topic (topic : Option String) (msg : RelaybusMessage) : String :=
  let trimmed := pyStrip (topic.getD "")
  if trimmed = "" then msg.topic else trimmed

/-- `DefaultCodec.decode`.  The envelope branch corresponds to a successful
`ParseFromString`; `env.payload or b""` is the identity on byte lists.  The
legacy branch mirrors `str(legacy.get("provider", provider) or provider)`
(with `provider` still `""` at that point) and the `data` lift; afterwards
empty provider/type are filled from the metadata keys and the event record is
assembled. -/
def DefaultCodec.decode (o : CodecOracle) (topic : Option String)
    (msg : Option RelaybusMessage) : Except String Event :=
  match msg with
  | none => .error "message payload is required"
  | some m =>
      let parsed : String × String × Bytes × Option Json :=
        match o.parseEnvelope m.payload with
        | some env =>
            (env.provider, env.name, env.payload, parse_json_object o env.payload)
        | none =>
            let fromLegacy : String × String × Option Json :=
              match parse_json_value o m.payload with
              | some (Json.obj fields) =>
                  let p0 := (assocGet fields "provider").getD (.str "")
                  let provider := pyStr o (if jtruthy p0 then p0 else .str "")
                  let n0 := (assocGet fields "name").getD (.str "")
                  let name := pyStr o (if jtruthy n0 then n0 else .str "")
                  let dataLift :=
                    match assocGet fields "data" with
                    | some (Json.obj df) => some (Json.obj df)
                    | _ => none
                  (provider, name, dataLift)
              | _ => ("", "", none)
            let normalized :=
              match fromLegacy.2.2 with
              | none => parse_json_object o m.payload
              | some v => some v
            (fromLegacy.1, fromLegacy.2.1, m.payload, normalized)
      let metadata := m.metadata
      let provider :=
        if parsed.1 = "" then metaGet metadata METADATA_KEY_PROVIDER else parsed.1
      let eventName :=
        if parsed.2.1 = "" then metaGet metadata METADATA_KEY_EVENT else parsed.2.1
      .ok
        { provider := provider
          type := eventName
          topic := resolve_topic topic m
          metadata := metadata
          payload := parsed.2.2.1
          normalized := parsed.2.2.2
          request_id := metaGet metadata METADATA_KEY_REQUEST_ID
          installation_id := metaGet metadata METADATA_KEY_INSTALLATION_ID
          log_id := metaGet metadata METADATA_KEY_LOG_ID
          client := none }

/-! ## Topic registration (`Worker.handle_topic`) -/

/-- The registry slice mutated by `handle_topic` and the rule prologue. -/
structure RegState (H : Type) where
  topicHandlers : List (String × H)
  topicDrivers : List (String × String)
  topics : List String
deriving DecidableEq

/-- The two Python call shapes of `handle_topic(topic, driver_or_handler,
handler=None)`: either a bare handler in the second position, or a driver-id
string plus an optional handler. -/
inductive TopicArgs (H : Type) where
  | handlerOnly (h : H) : TopicArgs H
  | withDriver (driverId : String) (h : Option H) : TopicArgs H

/-- `Worker.handle_topic` (worker.py lines 167-198): trims the topic, drops
empty or unlisted ones (the latter with a log line), resolves driver and
handler, falls back to the default driver, requires a driver when no global
subscriber is injected, then binds handler/driver and appends the topic. -/
def handle_topic {H : Type} (st : RegState H) (allowedTopics : List String)
    (defaultDriverId : String) (hasSubscriber : Bool) (topic : String)
    (args : TopicArgs H) : RegState H × List Effect :=
  let trimmed := pyStrip topic
  if trimmed = "" then (st, [])
  else if allowedTopics ≠ [] ∧ trimmed ∉ allowedTopics then
    (st, [Effect.logLine ("handler topic not subscribed: " ++ trimmed)])
  else
    let resolved : String × Option H :=
      match args with
      | .handlerOnly h => ("", some h)
      | .withDriver d h => (pyStrip d, h)
    match resolved.2 with
    | none => (st, [])
    | some handler =>
        let driverId := if resolved.1 = "" then defaultDriverId else resolved.1
        if driverId = "" ∧ ¬hasSubscriber then
          (st, [Effect.logLine ("driver id required for topic: " ++ trimmed)])
        else
          ({ topicHandlers := assocSet st.topicHandlers trimmed handler
             topicDrivers :=
               if driverId = "" then st.topicDrivers
               else assocSet st.topicDrivers trimmed driverId
             topics := st.topics ++ [trimmed] },
           [])

/-! ## Rule prologue (`Worker.prepare_rule_subscriptions`) -/

/-- A control-plane rule record as consumed by the prologue. -/
structure RuleRecord where
  emit : List String
  driver_id : String

/-- One iteration of the prologue loop for `(rule_id, handler)`: fetch the
rule, require a non-empty first emit topic and driver id, warn when the topic
is already bound, then overwrite the topic binding. -/
def processRule {H : Type} (getRule : String → Except String RuleRecord)
    (st : RegState H) (ruleId : String) (handler : H) :
    Except String (RegState H × List Effect) :=
  match getRule ruleId with
  | .error e => .error e
  | .ok record =>
      match record.emit with
      | [] => .error ("rule " ++ ruleId ++ " has no emit topic")
      | first :: _ =>
          let topic := pyStrip first
          if topic = "" then .error ("rule " ++ ruleId ++ " emit topic empty")
          else
            let driverId := pyStrip record.driver_id
            if driverId = "" then .error ("rule " ++ ruleId ++ " driver_id is required")
            else
              let warn :=
                if (assocGet st.topicHandlers topic).isSome then
                  [Effect.logLine
                     ("overwriting handler for topic=" ++ topic ++ " due to rule=" ++ ruleId)]
                else []
              .ok
                ({ topicHandlers := assocSet st.topicHandlers topic handler
                   topicDrivers := assocSet st.topicDrivers topic driverId
                   topics := st.topics ++ [topic] },
                 warn)

/-- `Worker.prepare_rule_subscriptions` (worker.py lines 530-553): iterate the
registered rule handlers in insertion order, failing fast on a bad record. -/
def prepare_rule_subscriptions {H : Type} (getRule : String → Except String RuleRecord) :
    List (String × H) → RegState H → Except String (RegState H × List Effect)
  | [], st => .ok (st, [])
  | (ruleId, handler) :: rest, st =>
      match processRule getRule st ruleId handler with
      | .error e => .error e
      | .ok (st1, warn) =>
          match prepare_rule_subscriptions getRule rest st1 with
          | .error e => .error e
          | .ok (stf, effs) => .ok (stf, warn ++ effs)

/-! ## Helper lemmas -/

theorem assocGet_assocSet_self {α : Type} (l : List (String × α)) (k : String) (v : α) :
    assocGet (assocSet l k v) k = some v := by
  induction l with
  | nil => simp [assocGet, assocSet]
  | cons hd tl ih =>
      obtain ⟨k2, v2⟩ := hd
      by_cases h : k2 = k <;> simp [assocGet, assocSet, h, ih]

theorem assocGet_assocSet_ne {α : Type} (l : List (String × α)) (k k2 : String) (v : α)
    (h : k2 ≠ k) : assocGet (assocSet l k v) k2 = assocGet l k2 := by
  induction l with
  | nil => simp [assocGet, assocSet, Ne.symm h]
  | cons hd tl ih =>
      obtain ⟨k3, v3⟩ := hd
      by_cases h3 : k3 = k
      · subst h3
        simp [assocGet, assocSet, h, Ne.symm h]
      · by_cases h4 : k3 = k2
        · subst h4
          simp [assocGet, assocSet, h3, h]
        · simp [assocGet, assocSet, h3, h4, ih]

theorem wrap_nil {H : Type} (h : H) : wrap [] h = h := rfl

theorem wrap_cons {H : Type} (m : H → H) (ms : List (H → H)) (h : H) :
    wrap (m :: ms) h = m (wrap ms h) := by
  simp [wrap, List.foldl_append]

theorem attemptLoop_count_le (b : Nat → Option String) (fuel : Nat) :
    ∀ idx lastErr, (attemptLoop b idx lastErr fuel).2 ≤ fuel := by
  induction fuel with
  | zero => intro idx lastErr; simp [attemptLoop]
  | succ n ih =>
      intro idx lastErr
      simp only [attemptLoop]
      cases b idx with
      | none => simp
      | some e => simpa using ih (idx + 1) (some e)

theorem attemptLoop_succ_eq (b : Nat → Option String) (idx : Nat) (lastErr : Option String)
    (fuel : Nat) :
    attemptLoop b idx lastErr (fuel + 1) =
      match b idx with
      | none => (none, 1)
      | some e =>
          ((attemptLoop b (idx + 1) (some e) fuel).1,
           (attemptLoop b (idx + 1) (some e) fuel).2 + 1) := rfl

theorem attemptLoop_success (b : Nat → Option String) (k : Nat) :
    ∀ idx lastErr fuel, (∀ j, j < k → b (idx + j) ≠ none) → b (idx + k) = none →
      k < fuel → attemptLoop b idx lastErr fuel = (none, k + 1) := by
  induction k with
  | zero =>
      intro idx lastErr fuel _ hsucc hk
      obtain ⟨f, rfl⟩ := Nat.exists_eq_succ_of_ne_zero (Nat.pos_iff_ne_zero.mp hk)
      have h1 : b idx = none := by simpa using hsucc
      rw [attemptLoop_succ_eq]
      simp [h1]
  | succ n ih =>
      intro idx lastErr fuel hfail hsucc hk
      obtain ⟨f, rfl⟩ := Nat.exists_eq_succ_of_ne_zero
        (Nat.pos_iff_ne_zero.mp (Nat.lt_of_le_of_lt (Nat.zero_le _) hk))
      have h0 : b idx ≠ none := by simpa using hfail 0 (Nat.succ_pos n)
      obtain ⟨e, he⟩ := Option.ne_none_iff_exists'.mp h0
      simp only [attemptLoop, he]
      have := ih (idx + 1) (some e) f
        (fun j hj => by
          have := hfail (j + 1) (Nat.succ_lt_succ hj)
          simpa [Nat.add_assoc, Nat.add_comm 1 j] using this)
        (by simpa [Nat.add_assoc, Nat.add_comm 1 n] using hsucc)
        (Nat.lt_of_succ_lt_succ hk)
      simp [this]

theorem attemptLoop_allFail (b : Nat → Option String) (fuel : Nat) :
    ∀ idx lastErr, (∀ j, j ≤ fuel → b (idx + j) ≠ none) →
      attemptLoop b idx lastErr (fuel + 1) = (b (idx + fuel), fuel + 1) := by
  induction fuel with
  | zero =>
      intro idx lastErr hfail
      have h0 : b idx ≠ none := by simpa using hfail 0 (Nat.le_refl 0)
      obtain ⟨e, he⟩ := Option.ne_none_iff_exists'.mp h0
      simp [attemptLoop, he]
  | succ n ih =>
      intro idx lastErr hfail
      have h0 : b idx ≠ none := by simpa using hfail 0 (Nat.zero_le _)
      obtain ⟨e, he⟩ := Option.ne_none_iff_exists'.mp h0
      have hrec := ih (idx + 1) (some e)
        (fun j hj => by
          have := hfail (j + 1) (Nat.succ_le_succ hj)
          simpa [Nat.add_assoc, Nat.add_comm 1 j] using this)
      rw [attemptLoop_succ_eq]
      simp [he, hrec, Nat.add_assoc, Nat.add_comm 1 n]

theorem statusUpdates_append (l1 l2 : List Effect) :
    statusUpdates (l1 ++ l2) = statusUpdates l1 ++ statusUpdates l2 := by
  induction l1 with
  | nil => simp [statusUpdates]
  | cons hd tl ih => cases hd <;> simp [statusUpdates, ih]

theorem onErrorCalls_append (l1 l2 : List Effect) :
    onErrorCalls (l1 ++ l2) = onErrorCalls l1 ++ onErrorCalls l2 := by
  induction l1 with
  | nil => simp [onErrorCalls]
  | cons hd tl ih => cases hd <;> simp [onErrorCalls, ih]

theorem retryPolicyCalls_append (l1 l2 : List Effect) :
    retryPolicyCalls (l1 ++ l2) = retryPolicyCalls l1 ++ retryPolicyCalls l2 := by
  induction l1 with
  | nil => simp [retryPolicyCalls]
  | cons hd tl ih => cases hd <;> simp [retryPolicyCalls, ih]

theorem countHandlerAttempts_append (l1 l2 : List Effect) :
    countHandlerAttempts (l1 ++ l2) = countHandlerAttempts l1 + countHandlerAttempts l2 := by
  induction l1 with
  | nil => simp [countHandlerAttempts]
  | cons hd tl ih => cases hd <;> simp [countHandlerAttempts, ih] <;> omega

theorem countMessageStarts_append (l1 l2 : List Effect) :
    countMessageStarts (l1 ++ l2) = countMessageStarts l1 + countMessageStarts l2 := by
  induction l1 with
  | nil => simp [countMessageStarts]
  | cons hd tl ih => cases hd <;> simp [countMessageStarts, ih] <;> omega

theorem messageFinishErrs_append (l1 l2 : List Effect) :
    messageFinishErrs (l1 ++ l2) = messageFinishErrs l1 ++ messageFinishErrs l2 := by
  induction l1 with
  | nil => simp [messageFinishErrs]
  | cons hd tl ih => cases hd <;> simp [messageFinishErrs, ih]

theorem countHandlerAttempts_replicate (n : Nat) :
    countHandlerAttempts (List.replicate n Effect.handlerAttempt) = n := by
  induction n with
  | zero => simp [countHandlerAttempts]
  | succ k ih => simp [List.replicate, countHandlerAttempts, ih]

theorem statusUpdates_replicate (n : Nat) :
    statusUpdates (List.replicate n Effect.handlerAttempt) = [] := by
  induction n with
  | zero => simp [statusUpdates]
  | succ k ih => simp [List.replicate, statusUpdates, ih]

theorem onErrorCalls_replicate (n : Nat) :
    onErrorCalls (List.replicate n Effect.handlerAttempt) = [] := by
  induction n with
  | zero => simp [onErrorCalls]
  | succ k ih => simp [List.replicate, onErrorCalls, ih]

theorem retryPolicyCalls_replicate (n : Nat) :
    retryPolicyCalls (List.replicate n Effect.handlerAttempt) = [] := by
  induction n with
  | zero => simp [retryPolicyCalls]
  | succ k ih => simp [List.replicate, retryPolicyCalls, ih]

theorem countMessageStarts_replicate (n : Nat) :
    countMessageStarts (List.replicate n Effect.handlerAttempt) = 0 := by
  induction n with
  | zero => simp [countMessageStarts]
  | succ k ih => simp [List.replicate, countMessageStarts, ih]

theorem messageFinishErrs_replicate (n : Nat) :
    messageFinishErrs (List.replicate n Effect.handlerAttempt) = [] := by
  induction n with
  | zero => simp [messageFinishErrs]
  | succ k ih => simp [List.replicate, messageFinishErrs, ih]

theorem statusUpdates_update (ue : Option String) (lid st : String) (e : Option String) :
    statusUpdates (update_event_log_status ue lid st e) =
      if lid = "" then [] else [(lid, st, e.getD "")] := by
  unfold update_event_log_status
  by_cases h : lid = "" <;> cases ue <;> simp [h, statusUpdates]

theorem onErrorCalls_update (ue : Option String) (lid st : String) (e : Option String) :
    onErrorCalls (update_event_log_status ue lid st e) = [] := by
  unfold update_event_log_status
  by_cases h : lid = "" <;> cases ue <;> simp [h, onErrorCalls]

theorem retryPolicyCalls_update (ue : Option String) (lid st : String) (e : Option String) :
    retryPolicyCalls (update_event_log_status ue lid st e) = [] := by
  unfold update_event_log_status
  by_cases h : lid = "" <;> cases ue <;> simp [h, retryPolicyCalls]

theorem countHandlerAttempts_update (ue : Option String) (lid st : String) (e : Option String) :
    countHandlerAttempts (update_event_log_status ue lid st e) = 0 := by
  unfold update_event_log_status
  by_cases h : lid = "" <;> cases ue <;> simp [h, countHandlerAttempts]

theorem countMessageStarts_update (ue : Option String) (lid st : String) (e : Option String) :
    countMessageStarts (update_event_log_status ue lid st e) = 0 := by
  unfold update_event_log_status
  by_cases h : lid = "" <;> cases ue <;> simp [h, countMessageStarts]

theorem messageFinishErrs_update (ue : Option String) (lid st : String) (e : Option String) :
    messageFinishErrs (update_event_log_status ue lid st e) = [] := by
  unfold update_event_log_status
  by_cases h : lid = "" <;> cases ue <;> simp [h, messageFinishErrs]

/-! ## Claim theorems -/

/-- C6: `Worker.wrap` applies middleware in reverse registration order so the
first-registered middleware is outermost: `[M1, M2, M3]` wraps a handler H as
`M1(M2(M3(H)))`, the head of a registered middleware list is the outermost
layer, and an empty middleware list leaves the handler unchanged. -/
theorem c6_middleware_wrap_order {H : Type} (m1 m2 m3 : H → H) (ms : List (H → H)) (h : H) :
    wrap ([] : List (H → H)) h = h ∧
    wrap (m1 :: ms) h = m1 (wrap ms h) ∧
    wrap [m1, m2, m3] h = m1 (m2 (m3 h)) :=
  ⟨wrap_nil h,
   wrap_cons m1 ms h,
   by rw [wrap_cons, wrap_cons, wrap_cons, wrap_nil]⟩

/-- C10: `normalize_retry_decision` maps any value that is neither a
`RetryDecision` nor a dict (e.g. Python `None`) to the default
`RetryDecision(retry=False, nack=True)`, so such a policy result still
produces a nack; for a dict, a missing `retry`/`Retry` key defaults `retry`
to `False` and a missing `nack`/`Nack` key defaults `nack` to `True`. -/
theorem c10_normalize_retry_decision_defaults :
    normalize_retry_decision RetryValue.other = { retry := false, nack := true } ∧
    (∀ entries, assocGet entries "retry" = none → assocGet entries "Retry" = none →
      (normalize_retry_decision (RetryValue.dict entries)).retry = false) ∧
    (∀ entries, assocGet entries "nack" = none → assocGet entries "Nack" = none →
      (normalize_retry_decision (RetryValue.dict entries)).nack = true) := by
  refine ⟨rfl, ?_, ?_⟩
  · intro entries h1 h2
    simp [normalize_retry_decision, h1, h2, pyTruthy]
  · intro entries h1 h2
    simp [normalize_retry_decision, h1, h2, pyTruthy]

/-- Witness for C10: a dict with neither `retry`/`Retry` nor `nack`/`Nack`
keys normalises to `retry=false, nack=true`. -/
theorem c10_normalize_retry_decision_defaults_witness :
    (normalize_retry_decision (RetryValue.dict [("x", PyValue.int 3)])).retry = false ∧
    (normalize_retry_decision (RetryValue.dict [("x", PyValue.int 3)])).nack = true :=
  ⟨c10_normalize_retry_decision_defaults.2.1 [("x", PyValue.int 3)] (by decide) (by decide),
   c10_normalize_retry_decision_defaults.2.2 [("x", PyValue.int 3)] (by decide) (by decide)⟩

/-- C9: when the allowed-topics set is non-empty and the trimmed topic is not
in it, `handle_topic` logs and returns without registering — the registry
(topic handlers, topic drivers, ordered topics list) is unchanged; and the
registry can only change for a trimmed topic in the allowed set, so only
allowed topics can ever be registered via `handle_topic`. -/
theorem c9_handle_topic_allowed_guard {H : Type} (st : RegState H)
    (allowed : List String) (dflt : String) (hasSub : Bool) (topic : String)
    (args : TopicArgs H) :
    (allowed ≠ [] → pyStrip topic ∉ allowed →
      (handle_topic st allowed dflt hasSub topic args).1 = st) ∧
    (allowed ≠ [] → (handle_topic st allowed dflt hasSub topic args).1 ≠ st →
      pyStrip topic ∈ allowed) := by
  constructor
  · intro hne hnm
    unfold handle_topic
    by_cases h1 : pyStrip topic = ""
    · simp [h1]
    · simp only [h1, if_false]
      rw [if_pos ⟨hne, hnm⟩]
  · intro hne hchanged
    by_cases hnm : pyStrip topic ∈ allowed
    · exact hnm
    · exfalso
      apply hchanged
      unfold handle_topic
      by_cases h1 : pyStrip topic = ""
      · simp [h1]
      · simp only [h1, if_false]
        rw [if_pos ⟨hne, hnm⟩]

/-- Witness for C9: with allowed topics `["a"]`, registering topic `"b"`
leaves the registry unchanged, and an unchanged registry is consistent with
only-allowed registration. -/
theorem c9_handle_topic_allowed_guard_witness :
    (handle_topic (H := Nat) ⟨[("x", 1)], [("x", "d")], ["x"]⟩ ["a"] "" false "b"
        (TopicArgs.handlerOnly 7)).1 = ⟨[("x", 1)], [("x", "d")], ["x"]⟩ :=
  (c9_handle_topic_allowed_guard ⟨[("x", 1)], [("x", "d")], ["x"]⟩ ["a"] "" false "b"
      (TopicArgs.handlerOnly 7)).1 (by decide) (by decide)

/-- C3 (code bug): the claim says a raising listener must not prevent later
listeners from running and its error is swallowed, but the `Worker.notify_*`
loops have no exception handling: with listeners `[L1, L2]` where
`L1.on_message_start` raises `"boom"`, `notify_message_start` invokes only one
listener and propagates the error to the dispatcher (so listener behaviour
does influence dispatch). -/
theorem c3_listener_error_propagates :
    notify_message_start
      [{ on_start := fun _ => .ok (), on_exit := fun _ => .ok (),
         on_message_start := fun _ _ => .error "boom",
         on_message_finish := fun _ _ _ => .ok (),
         on_error := fun _ _ _ => .ok () },
       { on_start := fun _ => .ok (), on_exit := fun _ => .ok (),
         on_message_start := fun _ _ => .ok (),
         on_message_finish := fun _ _ _ => .ok (),
         on_error := fun _ _ _ => .ok () }]
      ⟨"acme", "t", "", ""⟩
      ⟨"github", "push", "t", [], [], none, "", "", "", none⟩ = (1, some "boom") := rfl

/-! ## Path equations for `handle_message` -/

theorem handle_message_decode_fail {H : Type} (w : WorkerModel H) (ue : Option String)
    (ctx : WorkerContext) (topic : String) (msg : RelaybusMessage) (e : String)
    (hc : w.codec topic msg = .error e) :
    handle_message w ue ctx topic msg =
      ((normalize_retry_decision (w.retry ctx none e)).retry ||
         (normalize_retry_decision (w.retry ctx none e)).nack,
       Effect.logLine ("decode failed: " ++ e) ::
         update_event_log_status ue (metaGet msg.metadata METADATA_KEY_LOG_ID)
           EVENT_LOG_STATUS_FAILED (some e) ++
         [Effect.onError none e, Effect.retryPolicyCall none e]) := by
  unfold handle_message
  rw [hc]

theorem handle_message_client_fail {H : Type} (w : WorkerModel H) (ue : Option String)
    (ctx : WorkerContext) (topic : String) (msg : RelaybusMessage) (evt0 : Event)
    (e : String)
    (hc : w.codec topic msg = .ok evt0)
    (ha : attachClient w (build_context ctx topic msg) evt0 = .error e) :
    handle_message w ue ctx topic msg =
      ((normalize_retry_decision (w.retry (build_context ctx topic msg) (some evt0) e)).retry ||
         (normalize_retry_decision (w.retry (build_context ctx topic msg) (some evt0) e)).nack,
       Effect.logLine ("client init failed: " ++ e) ::
         update_event_log_status ue (metaGet msg.metadata METADATA_KEY_LOG_ID)
           EVENT_LOG_STATUS_FAILED (some e) ++
         [Effect.onError (some evt0) e, Effect.retryPolicyCall (some evt0) e]) := by
  unfold handle_message
  rw [hc]
  simp only []
  rw [ha]

theorem handle_message_no_handler {H : Type} (w : WorkerModel H) (ue : Option String)
    (ctx : WorkerContext) (topic : String) (msg : RelaybusMessage) (evt0 evt : Event)
    (hc : w.codec topic msg = .ok evt0)
    (ha : attachClient w (build_context ctx topic msg) evt0 = .ok evt)
    (hl : handlerLookup w topic evt = none) :
    handle_message w ue ctx topic msg =
      (false,
       ((if metaGet evt.metadata METADATA_KEY_REQUEST_ID = "" then []
         else
           [Effect.logLine
              ("request_id=" ++ metaGet evt.metadata METADATA_KEY_REQUEST_ID ++
                 " topic=" ++ evt.topic ++ " provider=" ++ evt.provider ++
                 " type=" ++ evt.type)]) ++
          [Effect.onMessageStart evt]) ++
         [Effect.logLine ("no handler for topic=" ++ topic ++ " type=" ++ evt.type),
          Effect.onMessageFinish evt none] ++
         update_event_log_status ue (metaGet msg.metadata METADATA_KEY_LOG_ID)
           EVENT_LOG_STATUS_SUCCESS none) := by
  unfold handle_message
  rw [hc]
  simp only []
  rw [ha]
  simp only []
  rw [hl]

theorem handle_message_handler_success {H : Type} (w : WorkerModel H) (ue : Option String)
    (ctx : WorkerContext) (topic : String) (msg : RelaybusMessage) (evt0 evt : Event)
    (h : H) (n : Nat)
    (hc : w.codec topic msg = .ok evt0)
    (ha : attachClient w (build_context ctx topic msg) evt0 = .ok evt)
    (hl : handlerLookup w topic evt = some h)
    (hres : attemptLoop (w.exec (wrap w.middleware h) (build_context ctx topic msg) evt)
        0 none (w.retryCount + 1) = (none, n)) :
    handle_message w ue ctx topic msg =
      (false,
       ((if metaGet evt.metadata METADATA_KEY_REQUEST_ID = "" then []
         else
           [Effect.logLine
              ("request_id=" ++ metaGet evt.metadata METADATA_KEY_REQUEST_ID ++
                 " topic=" ++ evt.topic ++ " provider=" ++ evt.provider ++
                 " type=" ++ evt.type)]) ++
          [Effect.onMessageStart evt]) ++
         List.replicate n Effect.handlerAttempt ++
         [Effect.onMessageFinish evt none] ++
         update_event_log_status ue (metaGet msg.metadata METADATA_KEY_LOG_ID)
           EVENT_LOG_STATUS_SUCCESS none) := by
  unfold handle_message
  rw [hc]
  simp only []
  rw [ha]
  simp only []
  rw [hl]
  simp only []
  rw [hres]

theorem handle_message_handler_fail {H : Type} (w : WorkerModel H) (ue : Option String)
    (ctx : WorkerContext) (topic : String) (msg : RelaybusMessage) (evt0 evt : Event)
    (h : H) (n : Nat) (e : String)
    (hc : w.codec topic msg = .ok evt0)
    (ha : attachClient w (build_context ctx topic msg) evt0 = .ok evt)
    (hl : handlerLookup w topic evt = some h)
    (hres : attemptLoop (w.exec (wrap w.middleware h) (build_context ctx topic msg) evt)
        0 none (w.retryCount + 1) = (some e, n)) :
    handle_message w ue ctx topic msg =
      ((normalize_retry_decision (w.retry (build_context ctx topic msg) (some evt) e)).retry ||
         (normalize_retry_decision (w.retry (build_context ctx topic msg) (some evt) e)).nack,
       ((if metaGet evt.metadata METADATA_KEY_REQUEST_ID = "" then []
         else
           [Effect.logLine
              ("request_id=" ++ metaGet evt.metadata METADATA_KEY_REQUEST_ID ++
                 " topic=" ++ evt.topic ++ " provider=" ++ evt.provider ++
                 " type=" ++ evt.type)]) ++
          [Effect.onMessageStart evt]) ++
         List.replicate n Effect.handlerAttempt ++
         [Effect.onMessageFinish evt (some e), Effect.onError (some evt) e] ++
         update_event_log_status ue (metaGet msg.metadata METADATA_KEY_LOG_ID)
           EVENT_LOG_STATUS_FAILED (some e) ++
         [Effect.retryPolicyCall (some evt) e]) := by
  unfold handle_message
  rw [hc]
  simp only []
  rw [ha]
  simp only []
  rw [hl]
  simp only []
  rw [hres]

theorem handle_message_attempts_le {H : Type} (w : WorkerModel H) (ue : Option String)
    (ctx : WorkerContext) (topic : String) (msg : RelaybusMessage) :
    countHandlerAttempts (handle_message w ue ctx topic msg).2 ≤ w.retryCount + 1 := by
  cases hc : w.codec topic msg with
  | error e =>
      rw [handle_message_decode_fail w ue ctx topic msg e hc]
      simp [countHandlerAttempts, countHandlerAttempts_append, countHandlerAttempts_update]
  | ok evt0 =>
      cases ha : attachClient w (build_context ctx topic msg) evt0 with
      | error e =>
          rw [handle_message_client_fail w ue ctx topic msg evt0 e hc ha]
          simp [countHandlerAttempts, countHandlerAttempts_append, countHandlerAttempts_update]
      | ok evt =>
          cases hl : handlerLookup w topic evt with
          | none =>
              rw [handle_message_no_handler w ue ctx topic msg evt0 evt hc ha hl]
              by_cases hr : metaGet evt.metadata METADATA_KEY_REQUEST_ID = "" <;>
                simp [hr, countHandlerAttempts, countHandlerAttempts_append,
                  countHandlerAttempts_update]
          | some h =>
              rcases hres : attemptLoop
                  (w.exec (wrap w.middleware h) (build_context ctx topic msg) evt)
                  0 none (w.retryCount + 1) with ⟨r1, n⟩
              have hn : n ≤ w.retryCount + 1 := by
                have hle := attemptLoop_count_le
                  (w.exec (wrap w.middleware h) (build_context ctx topic msg) evt)
                  (w.retryCount + 1) 0 none
                rw [hres] at hle
                exact hle
              cases r1 with
              | none =>
                  rw [handle_message_handler_success w ue ctx topic msg evt0 evt h n
                    hc ha hl hres]
                  by_cases hr : metaGet evt.metadata METADATA_KEY_REQUEST_ID = "" <;>
                    simpa [hr, countHandlerAttempts, countHandlerAttempts_append,
                      countHandlerAttempts_update, countHandlerAttempts_replicate] using hn
              | some e =>
                  rw [handle_message_handler_fail w ue ctx topic msg evt0 evt h n e
                    hc ha hl hres]
                  by_cases hr : metaGet evt.metadata METADATA_KEY_REQUEST_ID = "" <;>
                    simpa [hr, countHandlerAttempts, countHandlerAttempts_append,
                      countHandlerAttempts_update, countHandlerAttempts_replicate] using hn

/-- C2: the middleware-wrapped handler is invoked at most `retry_count + 1`
times on every path; if all earlier attempts fail and attempt `k ≤ retry_count`
succeeds, exactly `k + 1` invocations happen, the retry policy is never
consulted, and the outcome is SUCCESS with no requeue; if all
`retry_count + 1` attempts fail, the error reported to the finish listener,
`on_error`, the status update, and the retry policy is the last attempt's
error; `_normalize_retry_count` maps a negative, `None`, or non-integer
`retry_count` option to 0, so at least one attempt always runs. -/
theorem c2_retry_attempt_discipline {H : Type} (w : WorkerModel H) (ue : Option String)
    (ctx : WorkerContext) (topic : String) (msg : RelaybusMessage)
    (evt0 evt : Event) (h : H) (k : Nat) (e : String) :
    countHandlerAttempts (handle_message w ue ctx topic msg).2 ≤ w.retryCount + 1 ∧
    (w.codec topic msg = .ok evt0 →
      attachClient w (build_context ctx topic msg) evt0 = .ok evt →
      handlerLookup w topic evt = some h →
      (∀ j, j < k →
        w.exec (wrap w.middleware h) (build_context ctx topic msg) evt j ≠ none) →
      w.exec (wrap w.middleware h) (build_context ctx topic msg) evt k = none →
      k ≤ w.retryCount →
      countHandlerAttempts (handle_message w ue ctx topic msg).2 = k + 1 ∧
      retryPolicyCalls (handle_message w ue ctx topic msg).2 = [] ∧
      (handle_message w ue ctx topic msg).1 = false ∧
      statusUpdates (handle_message w ue ctx topic msg).2 =
        (if metaGet msg.metadata METADATA_KEY_LOG_ID = "" then []
         else [(metaGet msg.metadata METADATA_KEY_LOG_ID, EVENT_LOG_STATUS_SUCCESS, "")])) ∧
    (w.codec topic msg = .ok evt0 →
      attachClient w (build_context ctx topic msg) evt0 = .ok evt →
      handlerLookup w topic evt = some h →
      (∀ j, j ≤ w.retryCount →
        w.exec (wrap w.middleware h) (build_context ctx topic msg) evt j ≠ none) →
      w.exec (wrap w.middleware h) (build_context ctx topic msg) evt w.retryCount = some e →
      countHandlerAttempts (handle_message w ue ctx topic msg).2 = w.retryCount + 1 ∧
      messageFinishErrs (handle_message w ue ctx topic msg).2 = [some e] ∧
      onErrorCalls (handle_message w ue ctx topic msg).2 = [(some evt, e)] ∧
      retryPolicyCalls (handle_message w ue ctx topic msg).2 = [(some evt, e)] ∧
      statusUpdates (handle_message w ue ctx topic msg).2 =
        (if metaGet msg.metadata METADATA_KEY_LOG_ID = "" then []
         else [(metaGet msg.metadata METADATA_KEY_LOG_ID, EVENT_LOG_STATUS_FAILED, e)])) ∧
    (∀ n : Int, n < 0 → normalize_retry_count (RetryCountOption.int n) = 0) ∧
    normalize_retry_count RetryCountOption.none = 0 ∧
    normalize_retry_count RetryCountOption.notAnInt = 0 := by
  refine ⟨handle_message_attempts_le w ue ctx topic msg, ?_, ?_, ?_, rfl, rfl⟩
  · intro hc ha hl hfail hsucc hk
    have hloop : attemptLoop
        (w.exec (wrap w.middleware h) (build_context ctx topic msg) evt)
        0 none (w.retryCount + 1) = (none, k + 1) := by
      refine attemptLoop_success _ k 0 none (w.retryCount + 1) ?_ ?_ ?_
      · intro j hj
        simpa using hfail j hj
      · simpa using hsucc
      · omega
    rw [handle_message_handler_success w ue ctx topic msg evt0 evt h (k + 1) hc ha hl hloop]
    by_cases hr : metaGet evt.metadata METADATA_KEY_REQUEST_ID = "" <;>
      simp [hr, countHandlerAttempts, countHandlerAttempts_append,
        countHandlerAttempts_update, countHandlerAttempts_replicate,
        retryPolicyCalls, retryPolicyCalls_append, retryPolicyCalls_update,
        retryPolicyCalls_replicate, statusUpdates, statusUpdates_append,
        statusUpdates_update, statusUpdates_replicate]
  · intro hc ha hl hfail hlast
    have hloop : attemptLoop
        (w.exec (wrap w.middleware h) (build_context ctx topic msg) evt)
        0 none (w.retryCount + 1) = (some e, w.retryCount + 1) := by
      have := attemptLoop_allFail
        (w.exec (wrap w.middleware h) (build_context ctx topic msg) evt)
        w.retryCount 0 none (fun j hj => by simpa using hfail j hj)
      rw [this]
      simpa using congrArg (fun x => (x, w.retryCount + 1)) hlast
    rw [handle_message_handler_fail w ue ctx topic msg evt0 evt h (w.retryCount + 1) e
      hc ha hl hloop]
    by_cases hr : metaGet evt.metadata METADATA_KEY_REQUEST_ID = "" <;>
      simp [hr, countHandlerAttempts, countHandlerAttempts_append,
        countHandlerAttempts_update, countHandlerAttempts_replicate,
        messageFinishErrs, messageFinishErrs_append, messageFinishErrs_update,
        messageFinishErrs_replicate, onErrorCalls, onErrorCalls_append,
        onErrorCalls_update, onErrorCalls_replicate,
        retryPolicyCalls, retryPolicyCalls_append, retryPolicyCalls_update,
        retryPolicyCalls_replicate, statusUpdates, statusUpdates_append,
        statusUpdates_update, statusUpdates_replicate]
  · intro n hn
    simp [normalize_retry_count, hn]

/-- Witness for C2: a handler failing on attempt 0 and succeeding on attempt 1
with `retry_count = 2` gives exactly 2 invocations, no retry-policy call, a
`false` requeue flag, and one SUCCESS status update. -/
theorem c2_retry_attempt_discipline_witness :
    countHandlerAttempts
        (handle_message
          (⟨fun _ _ => .ok ⟨"github", "push", "t", [], [], none, "", "", "", none⟩,
            none, [("t", 5)], [], [],
            fun _ _ _ k => if k = 0 then some "boom" else none,
            fun _ _ _ => RetryValue.other, 2⟩ : WorkerModel Nat)
          none ⟨"acme", "", "", ""⟩ "t" ⟨"t", [], [("log_id", "L1")], ""⟩).2 = 2 ∧
    retryPolicyCalls
        (handle_message
          (⟨fun _ _ => .ok ⟨"github", "push", "t", [], [], none, "", "", "", none⟩,
            none, [("t", 5)], [], [],
            fun _ _ _ k => if k = 0 then some "boom" else none,
            fun _ _ _ => RetryValue.other, 2⟩ : WorkerModel Nat)
          none ⟨"acme", "", "", ""⟩ "t" ⟨"t", [], [("log_id", "L1")], ""⟩).2 = [] ∧
    (handle_message
          (⟨fun _ _ => .ok ⟨"github", "push", "t", [], [], none, "", "", "", none⟩,
            none, [("t", 5)], [], [],
            fun _ _ _ k => if k = 0 then some "boom" else none,
            fun _ _ _ => RetryValue.other, 2⟩ : WorkerModel Nat)
          none ⟨"acme", "", "", ""⟩ "t" ⟨"t", [], [("log_id", "L1")], ""⟩).1 = false ∧
    statusUpdates
        (handle_message
          (⟨fun _ _ => .ok ⟨"github", "push", "t", [], [], none, "", "", "", none⟩,
            none, [("t", 5)], [], [],
            fun _ _ _ k => if k = 0 then some "boom" else none,
            fun _ _ _ => RetryValue.other, 2⟩ : WorkerModel Nat)
          none ⟨"acme", "", "", ""⟩ "t" ⟨"t", [], [("log_id", "L1")], ""⟩).2 =
      [("L1", EVENT_LOG_STATUS_SUCCESS, "")] := by
  have hmain := (c2_retry_attempt_discipline
      (⟨fun _ _ => .ok ⟨"github", "push", "t", [], [], none, "", "", "", none⟩,
        none, [("t", 5)], [], [],
        fun _ _ _ k => if k = 0 then some "boom" else none,
        fun _ _ _ => RetryValue.other, 2⟩ : WorkerModel Nat)
      none ⟨"acme", "", "", ""⟩ "t" ⟨"t", [], [("log_id", "L1")], ""⟩
      ⟨"github", "push", "t", [], [], none, "", "", "", none⟩
      ⟨"github", "push", "t", [], [], none, "", "", "", none⟩
      5 1 "unused").2.1 rfl rfl rfl
      (by
        intro j hj
        have hj0 : j = 0 := by omega
        subst hj0
        decide)
      rfl (by decide)
  refine ⟨hmain.1, hmain.2.1, hmain.2.2.1, ?_⟩
  have hlid : metaGet [("log_id", "L1")] METADATA_KEY_LOG_ID = "L1" := by decide
  have := hmain.2.2.2
  rw [hlid] at this
  simpa using this

theorem statusUpdates_ite_log (c : Prop) [Decidable c] (s : String) :
    statusUpdates (if c then [] else [Effect.logLine s]) = [] := by
  split <;> simp [statusUpdates]

theorem onErrorCalls_ite_log (c : Prop) [Decidable c] (s : String) :
    onErrorCalls (if c then [] else [Effect.logLine s]) = [] := by
  split <;> simp [onErrorCalls]

theorem retryPolicyCalls_ite_log (c : Prop) [Decidable c] (s : String) :
    retryPolicyCalls (if c then [] else [Effect.logLine s]) = [] := by
  split <;> simp [retryPolicyCalls]

theorem countHandlerAttempts_ite_log (c : Prop) [Decidable c] (s : String) :
    countHandlerAttempts (if c then [] else [Effect.logLine s]) = 0 := by
  split <;> simp [countHandlerAttempts]

theorem countMessageStarts_ite_log (c : Prop) [Decidable c] (s : String) :
    countMessageStarts (if c then [] else [Effect.logLine s]) = 0 := by
  split <;> simp [countMessageStarts]

theorem messageFinishErrs_ite_log (c : Prop) [Decidable c] (s : String) :
    messageFinishErrs (if c then [] else [Effect.logLine s]) = [] := by
  split <;> simp [messageFinishErrs]

/-- C4: on a decode failure `e`, `handle_message` logs the decode failure
first, issues a FAILED status update exactly when the metadata `log_id` is
non-empty (with error string `e`), notifies `on_error` with a nil event,
consults the retry policy exactly once with a nil event, and returns
`decision.retry ∨ decision.nack`; no handler is invoked and neither
`on_message_start` nor `on_message_finish` is notified. -/
theorem c4_decode_failure_path {H : Type} (w : WorkerModel H) (ue : Option String)
    (ctx : WorkerContext) (topic : String) (msg : RelaybusMessage) (e : String)
    (hc : w.codec topic msg = .error e) :
    (handle_message w ue ctx topic msg).1 =
      ((normalize_retry_decision (w.retry ctx none e)).retry ||
        (normalize_retry_decision (w.retry ctx none e)).nack) ∧
    (handle_message w ue ctx topic msg).2.head? =
      some (Effect.logLine ("decode failed: " ++ e)) ∧
    statusUpdates (handle_message w ue ctx topic msg).2 =
      (if metaGet msg.metadata METADATA_KEY_LOG_ID = "" then []
       else [(metaGet msg.metadata METADATA_KEY_LOG_ID, EVENT_LOG_STATUS_FAILED, e)]) ∧
    onErrorCalls (handle_message w ue ctx topic msg).2 = [(none, e)] ∧
    retryPolicyCalls (handle_message w ue ctx topic msg).2 = [(none, e)] ∧
    countHandlerAttempts (handle_message w ue ctx topic msg).2 = 0 ∧
    countMessageStarts (handle_message w ue ctx topic msg).2 = 0 ∧
    messageFinishErrs (handle_message w ue ctx topic msg).2 = [] := by
  rw [handle_message_decode_fail w ue ctx topic msg e hc]
  refine ⟨rfl, rfl, ?_, ?_, ?_, ?_, ?_, ?_⟩ <;>
    simp [statusUpdates, statusUpdates_append, statusUpdates_update,
      onErrorCalls, onErrorCalls_append, onErrorCalls_update,
      retryPolicyCalls, retryPolicyCalls_append, retryPolicyCalls_update,
      countHandlerAttempts, countHandlerAttempts_append, countHandlerAttempts_update,
      countMessageStarts, countMessageStarts_append, countMessageStarts_update,
      messageFinishErrs, messageFinishErrs_append, messageFinishErrs_update]

/-- Witness for C4: a codec raising `"bad"` on a message with `log_id = "L3"`
yields requeue flag `retry ∨ nack = true`, status update `("L3", FAILED,
"bad")`, `on_error` and the retry policy called once with a nil event, and no
handler or message-start/finish notifications. -/
theorem c4_decode_failure_path_witness :
    (handle_message
        (⟨fun _ _ => .error "bad", none, [], [], [],
          fun _ _ _ _ => none,
          fun _ _ _ => RetryValue.decision ⟨true, false⟩, 0⟩ : WorkerModel Nat)
        none ⟨"acme", "", "", ""⟩ "t" ⟨"t", [], [("log_id", "L3")], ""⟩).1 = true ∧
    statusUpdates
        (handle_message
          (⟨fun _ _ => .error "bad", none, [], [], [],
            fun _ _ _ _ => none,
            fun _ _ _ => RetryValue.decision ⟨true, false⟩, 0⟩ : WorkerModel Nat)
          none ⟨"acme", "", "", ""⟩ "t" ⟨"t", [], [("log_id", "L3")], ""⟩).2 =
      [("L3", EVENT_LOG_STATUS_FAILED, "bad")] ∧
    onErrorCalls
        (handle_message
          (⟨fun _ _ => .error "bad", none, [], [], [],
            fun _ _ _ _ => none,
            fun _ _ _ => RetryValue.decision ⟨true, false⟩, 0⟩ : WorkerModel Nat)
          none ⟨"acme", "", "", ""⟩ "t" ⟨"t", [], [("log_id", "L3")], ""⟩).2 =
      [(none, "bad")] ∧
    retryPolicyCalls
        (handle_message
          (⟨fun _ _ => .error "bad", none, [], [], [],
            fun _ _ _ _ => none,
            fun _ _ _ => RetryValue.decision ⟨true, false⟩, 0⟩ : WorkerModel Nat)
          none ⟨"acme", "", "", ""⟩ "t" ⟨"t", [], [("log_id", "L3")], ""⟩).2 =
      [(none, "bad")] ∧
    countHandlerAttempts
        (handle_message
          (⟨fun _ _ => .error "bad", none, [], [], [],
            fun _ _ _ _ => none,
            fun _ _ _ => RetryValue.decision ⟨true, false⟩, 0⟩ : WorkerModel Nat)
          none ⟨"acme", "", "", ""⟩ "t" ⟨"t", [], [("log_id", "L3")], ""⟩).2 = 0 ∧
    countMessageStarts
        (handle_message
          (⟨fun _ _ => .error "bad", none, [], [], [],
            fun _ _ _ _ => none,
            fun _ _ _ => RetryValue.decision ⟨true, false⟩, 0⟩ : WorkerModel Nat)
          none ⟨"acme", "", "", ""⟩ "t" ⟨"t", [], [("log_id", "L3")], ""⟩).2 = 0 := by
  have hmain := c4_decode_failure_path
      (⟨fun _ _ => .error "bad", none, [], [], [],
        fun _ _ _ _ => none,
        fun _ _ _ => RetryValue.decision ⟨true, false⟩, 0⟩ : WorkerModel Nat)
      none ⟨"acme", "", "", ""⟩ "t" ⟨"t", [], [("log_id", "L3")], ""⟩ "bad" rfl
  have hlid : metaGet [("log_id", "L3")] METADATA_KEY_LOG_ID = "L3" := by decide
  refine ⟨by rw [hmain.1]; rfl, ?_, hmain.2.2.2.1, hmain.2.2.2.2.1,
    hmain.2.2.2.2.2.1, hmain.2.2.2.2.2.2.1⟩
  have hst := hmain.2.2.1
  rw [hlid] at hst
  simpa using hst

/-- C5: every processed message issues exactly one status update when its
metadata `log_id` is non-empty and none when it is empty; a SUCCESS update
always carries an empty error string and a FAILED update carries exactly the
final error (the one handed to `on_error`); and a failure of the status-update
call itself (`updateErr = some u`) changes neither the requeue flag nor the
issued updates, `on_error` notifications, or finish notifications. -/
theorem c5_status_update_discipline {H : Type} (w : WorkerModel H) (ue : Option String)
    (u : String) (ctx : WorkerContext) (topic : String) (msg : RelaybusMessage) :
    (statusUpdates (handle_message w ue ctx topic msg).2).length =
      (if metaGet msg.metadata METADATA_KEY_LOG_ID = "" then 0 else 1) ∧
    (handle_message w (some u) ctx topic msg).1 = (handle_message w none ctx topic msg).1 ∧
    statusUpdates (handle_message w (some u) ctx topic msg).2 =
      statusUpdates (handle_message w none ctx topic msg).2 ∧
    onErrorCalls (handle_message w (some u) ctx topic msg).2 =
      onErrorCalls (handle_message w none ctx topic msg).2 ∧
    messageFinishErrs (handle_message w (some u) ctx topic msg).2 =
      messageFinishErrs (handle_message w none ctx topic msg).2 ∧
    (∀ lid s es, (lid, s, es) ∈ statusUpdates (handle_message w ue ctx topic msg).2 →
      (s = EVENT_LOG_STATUS_SUCCESS ∧ es = "") ∨
      (s = EVENT_LOG_STATUS_FAILED ∧
        (onErrorCalls (handle_message w ue ctx topic msg).2).map Prod.snd = [es])) := by
  cases hc : w.codec topic msg with
  | error e =>
      rw [handle_message_decode_fail w ue ctx topic msg e hc,
        handle_message_decode_fail w (some u) ctx topic msg e hc,
        handle_message_decode_fail w none ctx topic msg e hc]
      refine ⟨?_, rfl, ?_, ?_, ?_, ?_⟩
      · by_cases hlid : metaGet msg.metadata METADATA_KEY_LOG_ID = "" <;>
          simp [hlid, statusUpdates, statusUpdates_append, statusUpdates_update]
      · simp [statusUpdates, statusUpdates_append, statusUpdates_update]
      · simp [onErrorCalls, onErrorCalls_append, onErrorCalls_update]
      · simp [messageFinishErrs, messageFinishErrs_append, messageFinishErrs_update]
      · intro lid s es hmem
        by_cases hlid : metaGet msg.metadata METADATA_KEY_LOG_ID = "" <;>
          simp [hlid, statusUpdates, statusUpdates_append, statusUpdates_update] at hmem
        right
        refine ⟨hmem.2.1, ?_⟩
        simp [onErrorCalls, onErrorCalls_append, onErrorCalls_update, hmem.2.2]
  | ok evt0 =>
      cases ha : attachClient w (build_context ctx topic msg) evt0 with
      | error e =>
          rw [handle_message_client_fail w ue ctx topic msg evt0 e hc ha,
            handle_message_client_fail w (some u) ctx topic msg evt0 e hc ha,
            handle_message_client_fail w none ctx topic msg evt0 e hc ha]
          refine ⟨?_, rfl, ?_, ?_, ?_, ?_⟩
          · by_cases hlid : metaGet msg.metadata METADATA_KEY_LOG_ID = "" <;>
              simp [hlid, statusUpdates, statusUpdates_append, statusUpdates_update]
          · simp [statusUpdates, statusUpdates_append, statusUpdates_update]
          · simp [onErrorCalls, onErrorCalls_append, onErrorCalls_update]
          · simp [messageFinishErrs, messageFinishErrs_append, messageFinishErrs_update]
          · intro lid s es hmem
            by_cases hlid : metaGet msg.metadata METADATA_KEY_LOG_ID = "" <;>
              simp [hlid, statusUpdates, statusUpdates_append, statusUpdates_update] at hmem
            right
            refine ⟨hmem.2.1, ?_⟩
            simp [onErrorCalls, onErrorCalls_append, onErrorCalls_update, hmem.2.2]
      | ok evt =>
          cases hl : handlerLookup w topic evt with
          | none =>
              rw [handle_message_no_handler w ue ctx topic msg evt0 evt hc ha hl,
                handle_message_no_handler w (some u) ctx topic msg evt0 evt hc ha hl,
                handle_message_no_handler w none ctx topic msg evt0 evt hc ha hl]
              refine ⟨?_, rfl, ?_, ?_, ?_, ?_⟩
              · by_cases hlid : metaGet msg.metadata METADATA_KEY_LOG_ID = "" <;>
                  simp [hlid, statusUpdates, statusUpdates_append, statusUpdates_update,
                    statusUpdates_ite_log]
              · simp [statusUpdates, statusUpdates_append, statusUpdates_update,
                  statusUpdates_ite_log]
              · simp [onErrorCalls, onErrorCalls_append, onErrorCalls_update,
                  onErrorCalls_ite_log]
              · simp [messageFinishErrs, messageFinishErrs_append, messageFinishErrs_update,
                  messageFinishErrs_ite_log]
              · intro lid s es hmem
                by_cases hlid : metaGet msg.metadata METADATA_KEY_LOG_ID = "" <;>
                  simp [hlid, statusUpdates, statusUpdates_append, statusUpdates_update,
                    statusUpdates_ite_log] at hmem
                exact Or.inl ⟨hmem.2.1, hmem.2.2⟩
          | some h =>
              rcases hres : attemptLoop
                  (w.exec (wrap w.middleware h) (build_context ctx topic msg) evt)
                  0 none (w.retryCount + 1) with ⟨r1, n⟩
              cases r1 with
              | none =>
                  rw [handle_message_handler_success w ue ctx topic msg evt0 evt h n
                      hc ha hl hres,
                    handle_message_handler_success w (some u) ctx topic msg evt0 evt h n
                      hc ha hl hres,
                    handle_message_handler_success w none ctx topic msg evt0 evt h n
                      hc ha hl hres]
                  refine ⟨?_, rfl, ?_, ?_, ?_, ?_⟩
                  · by_cases hlid : metaGet msg.metadata METADATA_KEY_LOG_ID = "" <;>
                      simp [hlid, statusUpdates, statusUpdates_append, statusUpdates_update,
                        statusUpdates_ite_log, statusUpdates_replicate]
                  · simp [statusUpdates, statusUpdates_append, statusUpdates_update,
                      statusUpdates_ite_log, statusUpdates_replicate]
                  · simp [onErrorCalls, onErrorCalls_append, onErrorCalls_update,
                      onErrorCalls_ite_log, onErrorCalls_replicate]
                  · simp [messageFinishErrs, messageFinishErrs_append,
                      messageFinishErrs_update, messageFinishErrs_ite_log,
                      messageFinishErrs_replicate]
                  · intro lid s es hmem
                    by_cases hlid : metaGet msg.metadata METADATA_KEY_LOG_ID = "" <;>
                      simp [hlid, statusUpdates, statusUpdates_append, statusUpdates_update,
                        statusUpdates_ite_log, statusUpdates_replicate] at hmem
                    exact Or.inl ⟨hmem.2.1, hmem.2.2⟩
              | some e =>
                  rw [handle_message_handler_fail w ue ctx topic msg evt0 evt h n e
                      hc ha hl hres,
                    handle_message_handler_fail w (some u) ctx topic msg evt0 evt h n e
                      hc ha hl hres,
                    handle_message_handler_fail w none ctx topic msg evt0 evt h n e
                      hc ha hl hres]
                  refine ⟨?_, rfl, ?_, ?_, ?_, ?_⟩
                  · by_cases hlid : metaGet msg.metadata METADATA_KEY_LOG_ID = "" <;>
                      simp [hlid, statusUpdates, statusUpdates_append, statusUpdates_update,
                        statusUpdates_ite_log, statusUpdates_replicate]
                  · simp [statusUpdates, statusUpdates_append, statusUpdates_update,
                      statusUpdates_ite_log, statusUpdates_replicate]
                  · simp [onErrorCalls, onErrorCalls_append, onErrorCalls_update,
                      onErrorCalls_ite_log, onErrorCalls_replicate]
                  · simp [messageFinishErrs, messageFinishErrs_append,
                      messageFinishErrs_update, messageFinishErrs_ite_log,
                      messageFinishErrs_replicate]
                  · intro lid s es hmem
                    by_cases hlid : metaGet msg.metadata METADATA_KEY_LOG_ID = "" <;>
                      simp [hlid, statusUpdates, statusUpdates_append, statusUpdates_update,
                        statusUpdates_ite_log, statusUpdates_replicate] at hmem
                    right
                    refine ⟨hmem.2.1, ?_⟩
                    simp [onErrorCalls, onErrorCalls_append, onErrorCalls_update,
                      onErrorCalls_ite_log, onErrorCalls_replicate, hmem.2.2]

/-- Witness for C5: a no-handler message with `log_id = "L1"` yields exactly
one status update, a status-update failure leaves the flag unchanged, and the
issued SUCCESS update carries an empty error string. -/
theorem c5_status_update_discipline_witness :
    (statusUpdates
        (handle_message
          (⟨fun _ _ => .ok ⟨"github", "push", "t", [], [], none, "", "", "", none⟩,
            none, [], [], [], fun _ _ _ _ => none,
            fun _ _ _ => RetryValue.other, 0⟩ : WorkerModel Nat)
          none ⟨"acme", "", "", ""⟩ "t" ⟨"t", [], [("log_id", "L1")], ""⟩).2).length = 1 ∧
    (handle_message
        (⟨fun _ _ => .ok ⟨"github", "push", "t", [], [], none, "", "", "", none⟩,
          none, [], [], [], fun _ _ _ _ => none,
          fun _ _ _ => RetryValue.other, 0⟩ : WorkerModel Nat)
        (some "http 500") ⟨"acme", "", "", ""⟩ "t" ⟨"t", [], [("log_id", "L1")], ""⟩).1 =
      (handle_message
        (⟨fun _ _ => .ok ⟨"github", "push", "t", [], [], none, "", "", "", none⟩,
          none, [], [], [], fun _ _ _ _ => none,
          fun _ _ _ => RetryValue.other, 0⟩ : WorkerModel Nat)
        none ⟨"acme", "", "", ""⟩ "t" ⟨"t", [], [("log_id", "L1")], ""⟩).1 ∧
    ((EVENT_LOG_STATUS_SUCCESS = EVENT_LOG_STATUS_SUCCESS ∧ ("" : String) = "") ∨
      (EVENT_LOG_STATUS_SUCCESS = EVENT_LOG_STATUS_FAILED ∧
        (onErrorCalls
            (handle_message
              (⟨fun _ _ => .ok ⟨"github", "push", "t", [], [], none, "", "", "", none⟩,
                none, [], [], [], fun _ _ _ _ => none,
                fun _ _ _ => RetryValue.other, 0⟩ : WorkerModel Nat)
              none ⟨"acme", "", "", ""⟩ "t"
              ⟨"t", [], [("log_id", "L1")], ""⟩).2).map Prod.snd = [""])) := by
  have hm := c5_status_update_discipline
      (⟨fun _ _ => .ok ⟨"github", "push", "t", [], [], none, "", "", "", none⟩,
        none, [], [], [], fun _ _ _ _ => none,
        fun _ _ _ => RetryValue.other, 0⟩ : WorkerModel Nat)
      none "http 500" ⟨"acme", "", "", ""⟩ "t" ⟨"t", [], [("log_id", "L1")], ""⟩
  refine ⟨?_, hm.2.1, hm.2.2.2.2.2 "L1" EVENT_LOG_STATUS_SUCCESS "" (by decide)⟩
  have h1 := hm.1
  rw [show metaGet [("log_id", "L1")] METADATA_KEY_LOG_ID = "L1" from by decide] at h1
  simpa using h1

/-- Counterexample to C1 as stated: a message whose `driver` metadata value is
`"AMQP"` (not equal to `"amqp"`) is still requeued on the failure path,
because `_should_requeue` lowercases the driver value before comparing; the
claim's formula `(retry ∨ nack) ∧ (driver = "amqp")` evaluates to false here
while the code returns true. -/
theorem c1_requeue_flag_counterexample :
    (dispatch_requeue
        (⟨fun _ _ => .error "bad", none, [], [], [], fun _ _ _ _ => none,
          fun _ _ _ => RetryValue.decision ⟨true, false⟩, 0⟩ : WorkerModel Nat)
        none ⟨"acme", "", "", ""⟩ "t" ⟨"t", [], [("driver", "AMQP")], ""⟩).1 = true ∧
    metaGet [("driver", "AMQP")] METADATA_KEY_DRIVER ≠ "amqp" := by
  exact ⟨by decide, by decide⟩

/-- C1 (amended): the requeue flag returned to the bus equals `should_nack ∧
should_requeue`, where `should_requeue` compares the LOWERCASED `driver`
metadata value with `"amqp"`; on each failure path (decode, client attach,
handler exhausted) the flag is `(decision.retry ∨ decision.nack) ∧
(lower(driver) = "amqp")` for the retry policy's decision on that path, and on
every success path and no-handler path the flag is false regardless of
driver. -/
theorem c1_requeue_flag_amended {H : Type} (w : WorkerModel H) (ue : Option String)
    (ctx : WorkerContext) (topic : String) (msg : RelaybusMessage) (e : String)
    (evt0 evt : Event) (h : H) (n : Nat) :
    (dispatch_requeue w ue ctx topic msg).1 =
      ((handle_message w ue ctx topic msg).1 && should_requeue msg) ∧
    should_requeue msg =
      (pyLower (metaGet msg.metadata METADATA_KEY_DRIVER) == "amqp") ∧
    (w.codec topic msg = .error e →
      (dispatch_requeue w ue ctx topic msg).1 =
        (((normalize_retry_decision (w.retry ctx none e)).retry ||
            (normalize_retry_decision (w.retry ctx none e)).nack) &&
          (pyLower (metaGet msg.metadata METADATA_KEY_DRIVER) == "amqp"))) ∧
    (w.codec topic msg = .ok evt0 →
      attachClient w (build_context ctx topic msg) evt0 = .error e →
      (dispatch_requeue w ue ctx topic msg).1 =
        (((normalize_retry_decision
              (w.retry (build_context ctx topic msg) (some evt0) e)).retry ||
            (normalize_retry_decision
              (w.retry (build_context ctx topic msg) (some evt0) e)).nack) &&
          (pyLower (metaGet msg.metadata METADATA_KEY_DRIVER) == "amqp"))) ∧
    (w.codec topic msg = .ok evt0 →
      attachClient w (build_context ctx topic msg) evt0 = .ok evt →
      handlerLookup w topic evt = some h →
      attemptLoop (w.exec (wrap w.middleware h) (build_context ctx topic msg) evt)
          0 none (w.retryCount + 1) = (some e, n) →
      (dispatch_requeue w ue ctx topic msg).1 =
        (((normalize_retry_decision
              (w.retry (build_context ctx topic msg) (some evt) e)).retry ||
            (normalize_retry_decision
              (w.retry (build_context ctx topic msg) (some evt) e)).nack) &&
          (pyLower (metaGet msg.metadata METADATA_KEY_DRIVER) == "amqp"))) ∧
    (w.codec topic msg = .ok evt0 →
      attachClient w (build_context ctx topic msg) evt0 = .ok evt →
      handlerLookup w topic evt = some h →
      attemptLoop (w.exec (wrap w.middleware h) (build_context ctx topic msg) evt)
          0 none (w.retryCount + 1) = (none, n) →
      (dispatch_requeue w ue ctx topic msg).1 = false) ∧
    (w.codec topic msg = .ok evt0 →
      attachClient w (build_context ctx topic msg) evt0 = .ok evt →
      handlerLookup w topic evt = none →
      (dispatch_requeue w ue ctx topic msg).1 = false) := by
  refine ⟨rfl, rfl, ?_, ?_, ?_, ?_, ?_⟩
  · intro hc
    simp [dispatch_requeue, should_requeue,
      handle_message_decode_fail w ue ctx topic msg e hc]
  · intro hc ha
    simp [dispatch_requeue, should_requeue,
      handle_message_client_fail w ue ctx topic msg evt0 e hc ha]
  · intro hc ha hl hres
    simp [dispatch_requeue, should_requeue,
      handle_message_handler_fail w ue ctx topic msg evt0 evt h n e hc ha hl hres]
  · intro hc ha hl hres
    simp [dispatch_requeue,
      handle_message_handler_success w ue ctx topic msg evt0 evt h n hc ha hl hres]
  · intro hc ha hl
    simp [dispatch_requeue,
      handle_message_no_handler w ue ctx topic msg evt0 evt hc ha hl]

/-- Witness for C1 (amended): on a decode failure with a `retry=true` policy
and driver metadata `"kafka"`, the requeue flag is false; the lowercase
comparison formula evaluates accordingly. -/
theorem c1_requeue_flag_amended_witness :
    (dispatch_requeue
        (⟨fun _ _ => .error "bad", none, [], [], [], fun _ _ _ _ => none,
          fun _ _ _ => RetryValue.decision ⟨true, false⟩, 0⟩ : WorkerModel Nat)
        none ⟨"acme", "", "", ""⟩ "t" ⟨"t", [], [("driver", "kafka")], ""⟩).1 =
      (((normalize_retry_decision (RetryValue.decision ⟨true, false⟩)).retry ||
          (normalize_retry_decision (RetryValue.decision ⟨true, false⟩)).nack) &&
        (pyLower (metaGet [("driver", "kafka")] METADATA_KEY_DRIVER) == "amqp")) := by
  have hm := (c1_requeue_flag_amended
      (⟨fun _ _ => .error "bad", none, [], [], [], fun _ _ _ _ => none,
        fun _ _ _ => RetryValue.decision ⟨true, false⟩, 0⟩ : WorkerModel Nat)
      none ⟨"acme", "", "", ""⟩ "t" ⟨"t", [], [("driver", "kafka")], ""⟩ "bad"
      ⟨"", "", "", [], [], none, "", "", "", none⟩
      ⟨"", "", "", [], [], none, "", "", "", none⟩ 0 0).2.2.1 rfl
  exact hm

/-- Counterexample to C7 as stated: a payload that parses as a protobuf
envelope with EMPTY provider `p = ""` does not yield an event with
`provider = p` — the codec post-fills empty provider from the metadata key
`provider`, so the event's provider is `"gitlab"` ≠ `p`. -/
theorem c7_codec_roundtrip_counterexample :
    (⟨fun _ => some ⟨"", "push", [1]⟩,
      fun b => if b = [1] then some (Json.obj [("a", Json.num 1)]) else none,
      fun _ => ""⟩ : CodecOracle).parseEnvelope
        (⟨"t", [0], [("provider", "gitlab")], ""⟩ : RelaybusMessage).payload =
      some ⟨"", "push", [1]⟩ ∧
    parse_json_object
      (⟨fun _ => some ⟨"", "push", [1]⟩,
        fun b => if b = [1] then some (Json.obj [("a", Json.num 1)]) else none,
        fun _ => ""⟩ : CodecOracle) [1] = some (Json.obj [("a", Json.num 1)]) ∧
    (DefaultCodec.decode
        (⟨fun _ => some ⟨"", "push", [1]⟩,
          fun b => if b = [1] then some (Json.obj [("a", Json.num 1)]) else none,
          fun _ => ""⟩ : CodecOracle)
        none (some ⟨"t", [0], [("provider", "gitlab")], ""⟩)).toOption.map
        Event.provider = some "gitlab" ∧
    ("gitlab" : String) ≠ "" :=
  ⟨rfl, rfl, rfl, by decide⟩

/-- C7 (amended): for every raw message whose payload parses as a protobuf
`EventPayload` envelope with NON-EMPTY provider `p` and name `n` and whose
inner payload parses as a JSON object `j`, `DefaultCodec.decode` returns an
event with `provider = p`, `type = n`, and `normalized = j` (when `p` or `n`
is empty the codec instead fills the field from the metadata keys
`provider`/`event`). -/
theorem c7_codec_envelope_roundtrip_amended (o : CodecOracle) (t : Option String)
    (m : RelaybusMessage) (env : Envelope) (j : Json)
    (henv : o.parseEnvelope m.payload = some env)
    (hjson : parse_json_object o env.payload = some j)
    (hp : env.provider ≠ "") (hn : env.name ≠ "") :
    (DefaultCodec.decode o t (some m)).toOption.map Event.provider =
      some env.provider ∧
    (DefaultCodec.decode o t (some m)).toOption.map Event.type = some env.name ∧
    (DefaultCodec.decode o t (some m)).toOption.bind Event.normalized = some j := by
  simp [DefaultCodec.decode, henv, hjson, hp, hn, Except.toOption]

/-- Witness for C7 (amended): a concrete envelope `{provider:"github",
name:"push", payload: bytes of a JSON object}` decodes to an event with
`provider="github"`, `type="push"`, and the parsed JSON object. -/
theorem c7_codec_envelope_roundtrip_amended_witness :
    (DefaultCodec.decode
        (⟨fun _ => some ⟨"github", "push", [1]⟩,
          fun b => if b = [1] then some (Json.obj [("x", Json.num 2)]) else none,
          fun _ => ""⟩ : CodecOracle)
        none (some ⟨"t", [9], [], ""⟩)).toOption.map Event.provider = some "github" ∧
    (DefaultCodec.decode
        (⟨fun _ => some ⟨"github", "push", [1]⟩,
          fun b => if b = [1] then some (Json.obj [("x", Json.num 2)]) else none,
          fun _ => ""⟩ : CodecOracle)
        none (some ⟨"t", [9], [], ""⟩)).toOption.map Event.type = some "push" ∧
    (DefaultCodec.decode
        (⟨fun _ => some ⟨"github", "push", [1]⟩,
          fun b => if b = [1] then some (Json.obj [("x", Json.num 2)]) else none,
          fun _ => ""⟩ : CodecOracle)
        none (some ⟨"t", [9], [], ""⟩)).toOption.bind Event.normalized =
      some (Json.obj [("x", Json.num 2)]) :=
  c7_codec_envelope_roundtrip_amended
    (⟨fun _ => some ⟨"github", "push", [1]⟩,
      fun b => if b = [1] then some (Json.obj [("x", Json.num 2)]) else none,
      fun _ => ""⟩ : CodecOracle)
    none ⟨"t", [9], [], ""⟩ ⟨"github", "push", [1]⟩ (Json.obj [("x", Json.num 2)])
    rfl rfl (by decide) (by decide)

theorem processRule_ok_inv {H : Type} (getRule : String → Except String RuleRecord)
    (st : RegState H) (rid : String) (h : H) (st1 : RegState H) (warn : List Effect)
    (hok : processRule getRule st rid h = .ok (st1, warn)) :
    ∃ rec first rest2, getRule rid = .ok rec ∧ rec.emit = first :: rest2 ∧
      pyStrip first ≠ "" ∧ pyStrip rec.driver_id ≠ "" ∧
      st1.topicHandlers = assocSet st.topicHandlers (pyStrip first) h ∧
      st1.topicDrivers = assocSet st.topicDrivers (pyStrip first) (pyStrip rec.driver_id) := by
  unfold processRule at hok
  cases hg : getRule rid with
  | error e => rw [hg] at hok; exact absurd hok (by simp)
  | ok rec =>
      rw [hg] at hok
      simp only [] at hok
      cases hemit : rec.emit with
      | nil => rw [hemit] at hok; exact absurd hok (by simp)
      | cons first rest2 =>
          rw [hemit] at hok
          simp only [] at hok
          by_cases h1 : pyStrip first = ""
          · rw [if_pos h1] at hok; exact absurd hok (by simp)
          · rw [if_neg h1] at hok
            by_cases h2 : pyStrip rec.driver_id = ""
            · rw [if_pos h2] at hok; exact absurd hok (by simp)
            · rw [if_neg h2] at hok
              simp only [Except.ok.injEq, Prod.mk.injEq] at hok
              refine ⟨rec, first, rest2, rfl, hemit, h1, h2, ?_, ?_⟩
              · rw [← hok.1]
              · rw [← hok.1]

theorem prepare_preserves {H : Type} (getRule : String → Except String RuleRecord)
    (rs : List (String × H)) :
    ∀ (st stf : RegState H) (effs : List Effect) (t : String),
      prepare_rule_subscriptions getRule rs st = .ok (stf, effs) →
      (∀ rid2 h2 rec2 first2 rest2, (rid2, h2) ∈ rs → getRule rid2 = .ok rec2 →
        rec2.emit = first2 :: rest2 → pyStrip first2 ≠ t) →
      assocGet stf.topicHandlers t = assocGet st.topicHandlers t ∧
      assocGet stf.topicDrivers t = assocGet st.topicDrivers t := by
  induction rs with
  | nil =>
      intro st stf effs t hok _
      unfold prepare_rule_subscriptions at hok
      simp only [Except.ok.injEq, Prod.mk.injEq] at hok
      rw [← hok.1]
      exact ⟨rfl, rfl⟩
  | cons hd tl ih =>
      obtain ⟨rid, h⟩ := hd
      intro st stf effs t hok hno
      unfold prepare_rule_subscriptions at hok
      cases hp : processRule getRule st rid h with
      | error e => rw [hp] at hok; exact absurd hok (by simp)
      | ok pr =>
          obtain ⟨st1, warn⟩ := pr
          rw [hp] at hok
          simp only [] at hok
          cases hrest : prepare_rule_subscriptions getRule tl st1 with
          | error e => rw [hrest] at hok; exact absurd hok (by simp)
          | ok pr2 =>
              obtain ⟨st2, effs2⟩ := pr2
              rw [hrest] at hok
              simp only [Except.ok.injEq, Prod.mk.injEq] at hok
              obtain ⟨rec, first, rest2, hg, hemit, _, _, hth, htd⟩ :=
                processRule_ok_inv getRule st rid h st1 warn hp
              have htne : pyStrip first ≠ t :=
                hno rid h rec first rest2 (List.mem_cons_self _ _) hg hemit
              have hih := ih st1 st2 effs2 t hrest
                (fun rid2 h2 rec2 f2 r2 hm hg2 he2 =>
                  hno rid2 h2 rec2 f2 r2 (List.mem_cons_of_mem _ hm) hg2 he2)
              rw [← hok.1]
              constructor
              · rw [hih.1, hth, assocGet_assocSet_ne _ _ _ _ (Ne.symm htne)]
              · rw [hih.2, htd, assocGet_assocSet_ne _ _ _ _ (Ne.symm htne)]

theorem processRule_bad {H : Type} (getRule : String → Except String RuleRecord)
    (st : RegState H) (rid : String) (h : H) (rec : RuleRecord)
    (hg : getRule rid = .ok rec)
    (hbad : rec.emit = [] ∨
      (∃ f r2, rec.emit = f :: r2 ∧ (pyStrip f = "" ∨ pyStrip rec.driver_id = ""))) :
    ∃ e, processRule getRule st rid h = .error e := by
  unfold processRule
  rw [hg]
  simp only []
  rcases hbad with hnil | ⟨f, r2, hcons, hbad2⟩
  · rw [hnil]
    exact ⟨_, rfl⟩
  · rw [hcons]
    simp only []
    rcases hbad2 with h1 | h2
    · rw [if_pos h1]
      exact ⟨_, rfl⟩
    · by_cases h1 : pyStrip f = ""
      · rw [if_pos h1]
        exact ⟨_, rfl⟩
      · rw [if_neg h1, if_pos h2]
        exact ⟨_, rfl⟩

theorem prepare_fails_on_bad {H : Type} (getRule : String → Except String RuleRecord)
    (rs : List (String × H)) :
    ∀ (st : RegState H) (rid : String) (h : H) (rec : RuleRecord),
      (rid, h) ∈ rs → getRule rid = .ok rec →
      (rec.emit = [] ∨
        (∃ f r2, rec.emit = f :: r2 ∧ (pyStrip f = "" ∨ pyStrip rec.driver_id = ""))) →
      ∃ e, prepare_rule_subscriptions getRule rs st = .error e := by
  induction rs with
  | nil => intro st rid h rec hmem; exact absurd hmem (by simp)
  | cons hd tl ih =>
      obtain ⟨rid2, h2⟩ := hd
      intro st rid h rec hmem hg hbad
      rcases List.mem_cons.mp hmem with heq | htail
      · injection heq with he1 he2
        subst he1
        subst he2
        obtain ⟨e, he⟩ := processRule_bad getRule st rid h rec hg hbad
        refine ⟨e, ?_⟩
        unfold prepare_rule_subscriptions
        rw [he]
      · cases hp : processRule getRule st rid2 h2 with
        | error e =>
            refine ⟨e, ?_⟩
            unfold prepare_rule_subscriptions
            rw [hp]
        | ok pr =>
            obtain ⟨st1, warn⟩ := pr
            obtain ⟨e, he⟩ := ih st1 rid h rec htail hg hbad
            refine ⟨e, ?_⟩
            unfold prepare_rule_subscriptions
            rw [hp]
            simp only []
            rw [he]

theorem prepare_binds {H : Type} (getRule : String → Except String RuleRecord)
    (pre : List (String × H)) :
    ∀ (st : RegState H) (rid : String) (h : H) (post : List (String × H))
      (stf : RegState H) (effs : List Effect) (rec : RuleRecord)
      (first : String) (rest2 : List String),
      prepare_rule_subscriptions getRule (pre ++ (rid, h) :: post) st = .ok (stf, effs) →
      getRule rid = .ok rec →
      rec.emit = first :: rest2 →
      (∀ rid2 h2 rec2 f2 r2, (rid2, h2) ∈ post → getRule rid2 = .ok rec2 →
        rec2.emit = f2 :: r2 → pyStrip f2 ≠ pyStrip first) →
      assocGet stf.topicHandlers (pyStrip first) = some h ∧
      assocGet stf.topicDrivers (pyStrip first) = some (pyStrip rec.driver_id) := by
  induction pre with
  | nil =>
      intro st rid h post stf effs rec first rest2 hok hg hemit hpost
      rw [List.nil_append] at hok
      unfold prepare_rule_subscriptions at hok
      cases hp : processRule getRule st rid h with
      | error e => rw [hp] at hok; exact absurd hok (by simp)
      | ok pr =>
          obtain ⟨st1, warn⟩ := pr
          rw [hp] at hok
          simp only [] at hok
          cases hrest : prepare_rule_subscriptions getRule post st1 with
          | error e => rw [hrest] at hok; exact absurd hok (by simp)
          | ok pr2 =>
              obtain ⟨st2, effs2⟩ := pr2
              rw [hrest] at hok
              simp only [Except.ok.injEq, Prod.mk.injEq] at hok
              obtain ⟨rec3, first3, rest3, hg3, hemit3, _, _, hth, htd⟩ :=
                processRule_ok_inv getRule st rid h st1 warn hp
              have hrec : rec3 = rec := by
                rw [hg] at hg3
                exact (Except.ok.inj hg3).symm
              rw [hrec] at hemit3 htd
              rw [hemit] at hemit3
              injection hemit3 with hf hrests
              rw [← hf] at hth htd
              have hpres := prepare_preserves getRule post st1 st2 effs2
                (pyStrip first) hrest hpost
              rw [← hok.1]
              constructor
              · rw [hpres.1, hth, assocGet_assocSet_self]
              · rw [hpres.2, htd, assocGet_assocSet_self]
  | cons hd tl ih =>
      obtain ⟨ridh, hh⟩ := hd
      intro st rid h post stf effs rec first rest2 hok hg hemit hpost
      rw [List.cons_append] at hok
      unfold prepare_rule_subscriptions at hok
      cases hp : processRule getRule st ridh hh with
      | error e => rw [hp] at hok; exact absurd hok (by simp)
      | ok pr =>
          obtain ⟨st1, warn⟩ := pr
          rw [hp] at hok
          simp only [] at hok
          cases hrest : prepare_rule_subscriptions getRule (tl ++ (rid, h) :: post) st1 with
          | error e => rw [hrest] at hok; exact absurd hok (by simp)
          | ok pr2 =>
              obtain ⟨st2, effs2⟩ := pr2
              rw [hrest] at hok
              simp only [Except.ok.injEq, Prod.mk.injEq] at hok
              have := ih st1 rid h post st2 effs2 rec first rest2 hrest hg hemit hpost
              rw [← hok.1]
              exact this

/-- Counterexample to C8 as stated: two registered rule-ids `r1` (handler 1)
and `r2` (handler 2) whose records both emit topic `"t"` — after the
prologue, `topic_handlers["t"]` is `r2`'s handler, not `r1`'s, so "for every
registered rule-id ... topic_handlers[emit[0]] is the rule's handler" fails
for `r1`. -/
theorem c8_rule_prologue_counterexample :
    (prepare_rule_subscriptions (fun _ => .ok ⟨["t"], "d"⟩)
        [("r1", (1 : Nat)), ("r2", 2)] ⟨[], [], []⟩).toOption.map
        (fun p => assocGet p.1.topicHandlers "t") = some (some 2) ∧
    some (some (2 : Nat)) ≠ some (some 1) :=
  ⟨rfl, by decide⟩

/-- C8 (amended): during the rule prologue, a fetched record with an empty
emit list, an emit topic that trims to empty, or a driver id that trims to
empty makes `run()` fail; otherwise each rule binds its handler to the trimmed
first emit topic and its driver id to that topic, overwriting (with a warning
log) any previously registered handler for the topic; after the prologue
`topic_handlers[emit[0]]` is the rule's handler PROVIDED no later-registered
rule-id emits the same topic (the last such rule wins). -/
theorem c8_rule_prologue_amended {H : Type} :
    (∀ (getRule : String → Except String RuleRecord) (rs : List (String × H))
        (st : RegState H) (rid : String) (h : H) (rec : RuleRecord),
      (rid, h) ∈ rs → getRule rid = .ok rec →
      (rec.emit = [] ∨
        (∃ f r2, rec.emit = f :: r2 ∧ (pyStrip f = "" ∨ pyStrip rec.driver_id = ""))) →
      ∃ e, prepare_rule_subscriptions getRule rs st = .error e) ∧
    (∀ (getRule : String → Except String RuleRecord) (pre post : List (String × H))
        (st : RegState H) (rid : String) (h : H) (stf : RegState H)
        (effs : List Effect) (rec : RuleRecord) (first : String) (rest2 : List String),
      prepare_rule_subscriptions getRule (pre ++ (rid, h) :: post) st = .ok (stf, effs) →
      getRule rid = .ok rec →
      rec.emit = first :: rest2 →
      (∀ rid2 h2 rec2 f2 r2, (rid2, h2) ∈ post → getRule rid2 = .ok rec2 →
        rec2.emit = f2 :: r2 → pyStrip f2 ≠ pyStrip first) →
      assocGet stf.topicHandlers (pyStrip first) = some h ∧
      assocGet stf.topicDrivers (pyStrip first) = some (pyStrip rec.driver_id)) ∧
    (∀ (getRule : String → Except String RuleRecord) (st : RegState H)
        (rid : String) (h : H) (rec : RuleRecord) (first : String)
        (rest2 : List String) (st1 : RegState H) (warn : List Effect),
      getRule rid = .ok rec → rec.emit = first :: rest2 →
      processRule getRule st rid h = .ok (st1, warn) →
      ((assocGet st.topicHandlers (pyStrip first)).isSome = true →
        warn = [Effect.logLine
          ("overwriting handler for topic=" ++ pyStrip first ++ " due to rule=" ++ rid)]) ∧
      assocGet st1.topicHandlers (pyStrip first) = some h) := by
  refine ⟨fun getRule rs st rid h rec hmem hg hbad =>
      prepare_fails_on_bad getRule rs st rid h rec hmem hg hbad,
    fun getRule pre post st rid h stf effs rec first rest2 hok hg hemit hpost =>
      prepare_binds getRule pre st rid h post stf effs rec first rest2 hok hg hemit hpost,
    ?_⟩
  intro getRule st rid h rec first rest2 st1 warn hg hemit hok
  unfold processRule at hok
  rw [hg] at hok
  simp only [] at hok
  rw [hemit] at hok
  simp only [] at hok
  by_cases h1 : pyStrip first = ""
  · rw [if_pos h1] at hok
    exact absurd hok (by simp)
  · rw [if_neg h1] at hok
    by_cases h2 : pyStrip rec.driver_id = ""
    · rw [if_pos h2] at hok
      exact absurd hok (by simp)
    · rw [if_neg h2] at hok
      simp only [Except.ok.injEq, Prod.mk.injEq] at hok
      constructor
      · intro hsome
        rw [← hok.2, if_pos hsome]
      · rw [← hok.1, assocGet_assocSet_self]

/-- Witness for C8 (amended): two rules emitting distinct topics `t1`, `t2`
with drivers `d1`, `d2`; after the prologue, topic `t2` is bound to rule
`r2`'s handler 2 and driver `d2`. -/
theorem c8_rule_prologue_amended_witness :
    assocGet
        (⟨[("t1", 1), ("t2", 2)], [("t1", "d1"), ("t2", "d2")],
          ["t1", "t2"]⟩ : RegState Nat).topicHandlers (pyStrip "t2") = some 2 ∧
    assocGet
        (⟨[("t1", 1), ("t2", 2)], [("t1", "d1"), ("t2", "d2")],
          ["t1", "t2"]⟩ : RegState Nat).topicDrivers (pyStrip "t2") =
      some (pyStrip "d2") :=
  (c8_rule_prologue_amended (H := Nat)).2.1
    (fun rid => if rid = "r1" then .ok ⟨["t1"], "d1"⟩ else .ok ⟨["t2"], "d2"⟩)
    [("r1", 1)] [] ⟨[], [], []⟩ "r2" 2
    ⟨[("t1", 1), ("t2", 2)], [("t1", "d1"), ("t2", "d2")], ["t1", "t2"]⟩
    [] ⟨["t2"], "d2"⟩ "t2" []
    rfl rfl rfl (by simp)
